import Mathlib

/-!
Shallow embedding of `gamgee::utils::MergedVCFLUTBase` and
`gamgee::utils::MergedVCFAllelesIdxLUT` (src/gamgee/utils/merged_vcf_lut.h and
src/gamgee/utils/merged_vcf_lut.cpp), together with theorems settling the
frozen claims about the bidirectional index-translation table.

Modelling conventions:
* `std::vector<int>` becomes `List Int`, `std::vector<std::vector<int>>`
  becomes `List (List Int)`.
* `unsigned` parameters become `Nat`; the implicit `unsigned -> int`
  conversion performed when an unsigned argument is passed to the `int`
  row/column parameters of `get_lut_value` / `set_lut_value` is modelled
  explicitly by `toInt32` (wrap-around modulo 2^32 into [-2^31, 2^31)).
* a failed `assert` (the only failure mode of the accessors) is modelled by
  returning `none`; the C++ template booleans become fields of the record so
  that tables with different layouts share one type.
-/

namespace Gamgee

/-- Modelled from the spec: the sentinel (`gamgee::missing_values::int32`,
declared in gamgee/missing.h which is not part of the two source files).  The
header comment states "Missing field information is stored as
bcf_int32_missing", htslib's `INT32_MIN + 1`. -/
def missing_int32 : Int := -2147483647

/-- The value of `unsigned` arguments after the implicit conversion to `int`
performed at the call sites of `get_lut_value` / `set_lut_value`
(wrap-around semantics, modulo 2^32 into [-2^31, 2^31)). -/
def toInt32 (n : Nat) : Int :=
  if n % 4294967296 < 2147483648 then ((n % 4294967296 : Nat) : Int)
  else ((n % 4294967296 : Nat) : Int) - 4294967296

/-- One of the two matrices (`std::vector<std::vector<int>>`). -/
abbrev LutMatrix := List (List Int)

/-- `MergedVCFLUTBase::reset_vector(vec, from)` (merged_vcf_lut.cpp):
`for(auto i=from;i<vec.size();++i) vec[i] = gamgee::missing_values::int32;` -/
def reset_vector (vec : List Int) (frm : Nat) : List Int :=
  vec.mapIdx (fun i x => if frm ≤ i then missing_int32 else x)

/-- `MergedVCFLUTBase::resize_and_reset_vector(vec, new_size)`
(merged_vcf_lut.cpp): grow the vector (`std::vector::resize` value-initialises
the new cells to 0) and reset the newly added suffix, only if
`new_size > vec.size()`. -/
def resize_and_reset_vector (vec : List Int) (new_size : Nat) : List Int :=
  if new_size > vec.length then
    reset_vector (vec ++ List.replicate (new_size - vec.length) 0) vec.length
  else vec

/-- `MergedVCFLUTBase::resize_and_reset_lut(lut, new_lut_size, new_vector_size,
numRowsVar, numColsVar)` (merged_vcf_lut.cpp).  The two `unsigned&` reference
parameters are modelled by returning their new values alongside the matrix. -/
def resize_and_reset_lut (lut : LutMatrix) (new_lut_size new_vector_size : Nat)
    (numRowsVar numColsVar : Nat) : LutMatrix × Nat × Nat :=
  let old_lut_size := lut.length
  let lut1 := if new_lut_size > old_lut_size then
      lut ++ List.replicate (new_lut_size - old_lut_size) ([] : List Int)
    else lut
  let numRows1 := if new_lut_size > old_lut_size then new_lut_size else numRowsVar
  let old_vector_size := if lut1.length > 0 then (lut1.getD 0 []).length else 0
  let start_idx := if new_vector_size > old_vector_size then 0 else old_lut_size
  let numCols1 := if new_vector_size > old_vector_size then new_vector_size else numColsVar
  let new_vector_size1 := if new_vector_size > old_vector_size then new_vector_size
    else old_vector_size
  let lut2 := lut1.mapIdx (fun i row =>
    if start_idx ≤ i ∧ i < new_lut_size then resize_and_reset_vector row new_vector_size1
    else row)
  (lut2, numRows1, numCols1)

/-- `MergedVCFLUTBase<inputs_2_merged_LUT_is_input_ordered,
merged_2_inputs_LUT_is_input_ordered>` (merged_vcf_lut.h).  The two template
booleans become fields fixed at construction. -/
structure MergedVCFLUTBase where
  inputs_2_merged_LUT_is_input_ordered : Bool
  merged_2_inputs_LUT_is_input_ordered : Bool
  m_num_input_vcfs : Nat
  m_num_merged_fields : Nat
  m_inputs_2_merged_lut : LutMatrix
  m_merged_2_inputs_lut : LutMatrix
  deriving Repr, DecidableEq

/-- `MergedVCFLUTBase::get_lut_value(lut, rowIdx, columnIdx)`
(merged_vcf_lut.h): the four `assert`s become the guard; a failed assert is
`none`. -/
def get_lut_value (lut : LutMatrix) (rowIdx columnIdx : Int) : Option Int :=
  if 0 ≤ rowIdx ∧ rowIdx < (lut.length : Int) ∧ 0 ≤ columnIdx ∧
      columnIdx < ((lut.getD rowIdx.toNat []).length : Int) then
    some ((lut.getD rowIdx.toNat []).getD columnIdx.toNat 0)
  else none

/-- `MergedVCFLUTBase::set_lut_value(lut, rowIdx, columnIdx, value)`
(merged_vcf_lut.h). -/
def set_lut_value (lut : LutMatrix) (rowIdx columnIdx value : Int) :
    Option LutMatrix :=
  if 0 ≤ rowIdx ∧ rowIdx < (lut.length : Int) ∧ 0 ≤ columnIdx ∧
      columnIdx < ((lut.getD rowIdx.toNat []).length : Int) then
    some (lut.set rowIdx.toNat ((lut.getD rowIdx.toNat []).set columnIdx.toNat value))
  else none

namespace MergedVCFLUTBase

/-- `get_input_idx_for_merged(inputGVCFIdx, mergedIdx)`: the two
`enable_if` overloads collapse into a test of the layout flag. -/
def get_input_idx_for_merged (s : MergedVCFLUTBase) (inputGVCFIdx : Nat)
    (mergedIdx : Int) : Option Int :=
  if s.merged_2_inputs_LUT_is_input_ordered then
    get_lut_value s.m_merged_2_inputs_lut (toInt32 inputGVCFIdx) mergedIdx
  else
    get_lut_value s.m_merged_2_inputs_lut mergedIdx (toInt32 inputGVCFIdx)

/-- `get_merged_idx_for_input(inputGVCFIdx, inputIdx)`. -/
def get_merged_idx_for_input (s : MergedVCFLUTBase) (inputGVCFIdx : Nat)
    (inputIdx : Int) : Option Int :=
  if s.inputs_2_merged_LUT_is_input_ordered then
    get_lut_value s.m_inputs_2_merged_lut (toInt32 inputGVCFIdx) inputIdx
  else
    get_lut_value s.m_inputs_2_merged_lut inputIdx (toInt32 inputGVCFIdx)

/-- `set_merged_idx_for_input(inputGVCFIdx, inputIdx, mergedIdx)`. -/
def set_merged_idx_for_input (s : MergedVCFLUTBase) (inputGVCFIdx : Nat)
    (inputIdx mergedIdx : Int) : Option MergedVCFLUTBase :=
  if s.inputs_2_merged_LUT_is_input_ordered then
    (set_lut_value s.m_inputs_2_merged_lut (toInt32 inputGVCFIdx) inputIdx mergedIdx).map
      (fun l => { s with m_inputs_2_merged_lut := l })
  else
    (set_lut_value s.m_inputs_2_merged_lut inputIdx (toInt32 inputGVCFIdx) mergedIdx).map
      (fun l => { s with m_inputs_2_merged_lut := l })

/-- `set_input_idx_for_merged(inputGVCFIdx, inputIdx, mergedIdx)`. -/
def set_input_idx_for_merged (s : MergedVCFLUTBase) (inputGVCFIdx : Nat)
    (inputIdx mergedIdx : Int) : Option MergedVCFLUTBase :=
  if s.merged_2_inputs_LUT_is_input_ordered then
    (set_lut_value s.m_merged_2_inputs_lut (toInt32 inputGVCFIdx) mergedIdx inputIdx).map
      (fun l => { s with m_merged_2_inputs_lut := l })
  else
    (set_lut_value s.m_merged_2_inputs_lut mergedIdx (toInt32 inputGVCFIdx) inputIdx).map
      (fun l => { s with m_merged_2_inputs_lut := l })

/-- `add_input_merged_idx_pair(inputGVCFIdx, inputIdx, mergedIdx)`:
`set_merged_idx_for_input` then `set_input_idx_for_merged`. -/
def add_input_merged_idx_pair (s : MergedVCFLUTBase) (inputGVCFIdx : Nat)
    (inputIdx mergedIdx : Int) : Option MergedVCFLUTBase :=
  (s.set_merged_idx_for_input inputGVCFIdx inputIdx mergedIdx).bind
    (fun s1 => s1.set_input_idx_for_merged inputGVCFIdx inputIdx mergedIdx)

/-- `reset_merged_idx_for_input(inputGVCFIdx, inputIdx)`. -/
def reset_merged_idx_for_input (s : MergedVCFLUTBase) (inputGVCFIdx : Nat)
    (inputIdx : Int) : Option MergedVCFLUTBase :=
  s.set_merged_idx_for_input inputGVCFIdx inputIdx missing_int32

/-- `reset_input_idx_for_merged(inputGVCFIdx, mergedIdx)`. -/
def reset_input_idx_for_merged (s : MergedVCFLUTBase) (inputGVCFIdx : Nat)
    (mergedIdx : Int) : Option MergedVCFLUTBase :=
  s.set_input_idx_for_merged inputGVCFIdx missing_int32 mergedIdx

/-- `reset_luts()`: `reset_vector` on every row of both matrices. -/
def reset_luts (s : MergedVCFLUTBase) : MergedVCFLUTBase :=
  { s with
    m_inputs_2_merged_lut := s.m_inputs_2_merged_lut.map (fun v => reset_vector v 0),
    m_merged_2_inputs_lut := s.m_merged_2_inputs_lut.map (fun v => reset_vector v 0) }

/-- `resize_inputs_2_merged_lut_if_needed(numInputGVCFs, numMergedFields)`:
the layout flag decides which logical axis is the physical row axis and which
member counters are passed as the `unsigned&` parameters. -/
def resize_inputs_2_merged_lut_if_needed (s : MergedVCFLUTBase)
    (numInputGVCFs numMergedFields : Nat) : MergedVCFLUTBase :=
  if s.inputs_2_merged_LUT_is_input_ordered then
    let r := resize_and_reset_lut s.m_inputs_2_merged_lut numInputGVCFs numMergedFields
      s.m_num_input_vcfs s.m_num_merged_fields
    { s with m_inputs_2_merged_lut := r.1, m_num_input_vcfs := r.2.1,
             m_num_merged_fields := r.2.2 }
  else
    let r := resize_and_reset_lut s.m_inputs_2_merged_lut numMergedFields numInputGVCFs
      s.m_num_merged_fields s.m_num_input_vcfs
    { s with m_inputs_2_merged_lut := r.1, m_num_merged_fields := r.2.1,
             m_num_input_vcfs := r.2.2 }

/-- `resize_merged_2_inputs_lut_if_needed(numInputGVCFs, numMergedFields)`. -/
def resize_merged_2_inputs_lut_if_needed (s : MergedVCFLUTBase)
    (numInputGVCFs numMergedFields : Nat) : MergedVCFLUTBase :=
  if s.merged_2_inputs_LUT_is_input_ordered then
    let r := resize_and_reset_lut s.m_merged_2_inputs_lut numInputGVCFs numMergedFields
      s.m_num_input_vcfs s.m_num_merged_fields
    { s with m_merged_2_inputs_lut := r.1, m_num_input_vcfs := r.2.1,
             m_num_merged_fields := r.2.2 }
  else
    let r := resize_and_reset_lut s.m_merged_2_inputs_lut numMergedFields numInputGVCFs
      s.m_num_merged_fields s.m_num_input_vcfs
    { s with m_merged_2_inputs_lut := r.1, m_num_merged_fields := r.2.1,
             m_num_input_vcfs := r.2.2 }

/-- `resize_luts_if_needed(numInputGVCFs, numMergedFields)`:
merged-to-inputs matrix first, then inputs-to-merged. -/
def resize_luts_if_needed (s : MergedVCFLUTBase)
    (numInputGVCFs numMergedFields : Nat) : MergedVCFLUTBase :=
  (s.resize_merged_2_inputs_lut_if_needed numInputGVCFs numMergedFields).resize_inputs_2_merged_lut_if_needed
    numInputGVCFs numMergedFields

/-- The two-argument constructor
`MergedVCFLUTBase(numInputGVCFs, numMergedFields)` (merged_vcf_lut.cpp):
store the counters, `clear()` (empty matrices), then resize the
inputs-to-merged matrix followed by the merged-to-inputs matrix. -/
def construct (f1 f2 : Bool) (numInputGVCFs numMergedFields : Nat) :
    MergedVCFLUTBase :=
  let s0 : MergedVCFLUTBase :=
    { inputs_2_merged_LUT_is_input_ordered := f1,
      merged_2_inputs_LUT_is_input_ordered := f2,
      m_num_input_vcfs := numInputGVCFs,
      m_num_merged_fields := numMergedFields,
      m_inputs_2_merged_lut := [],
      m_merged_2_inputs_lut := [] }
  (s0.resize_inputs_2_merged_lut_if_needed numInputGVCFs numMergedFields).resize_merged_2_inputs_lut_if_needed
    numInputGVCFs numMergedFields

end MergedVCFLUTBase

/-- `MergedVCFAllelesIdxLUT::m_DEFAULT_INIT_NUM_ALLELES`. -/
def m_DEFAULT_INIT_NUM_ALLELES : Nat := 10

/-- `MergedVCFAllelesIdxLUT<...>` (merged_vcf_lut.h): the derived class adds
the max-alleles watermark. -/
structure MergedVCFAllelesIdxLUT where
  toBase : MergedVCFLUTBase
  m_max_num_alleles : Nat
  deriving Repr, DecidableEq

namespace MergedVCFAllelesIdxLUT

/-- `MergedVCFAllelesIdxLUT(numInputGVCFs)`: base constructed with
`(numInputGVCFs, m_DEFAULT_INIT_NUM_ALLELES)`, watermark set to the default. -/
def construct (f1 f2 : Bool) (numInputGVCFs : Nat) : MergedVCFAllelesIdxLUT :=
  { toBase := MergedVCFLUTBase.construct f1 f2 numInputGVCFs m_DEFAULT_INIT_NUM_ALLELES,
    m_max_num_alleles := m_DEFAULT_INIT_NUM_ALLELES }

/-- `MergedVCFAllelesIdxLUT::resize_luts_if_needed(numMergedAlleles)`. -/
def resize_luts_if_needed (t : MergedVCFAllelesIdxLUT) (numMergedAlleles : Nat) :
    MergedVCFAllelesIdxLUT :=
  if numMergedAlleles > t.m_max_num_alleles then
    { toBase := t.toBase.resize_luts_if_needed t.toBase.m_num_input_vcfs numMergedAlleles,
      m_max_num_alleles := numMergedAlleles }
  else t

end MergedVCFAllelesIdxLUT

/-! ### Pointwise descriptions of the vector-level helpers -/

theorem length_reset_vector (v : List Int) (frm : Nat) :
    (reset_vector v frm).length = v.length := by
  simp [reset_vector]

theorem getElem?_reset_vector (v : List Int) (frm i : Nat) :
    (reset_vector v frm)[i]? =
      v[i]?.map (fun x => if frm ≤ i then missing_int32 else x) := by
  simp [reset_vector]

theorem length_resize_and_reset_vector (v : List Int) (n : Nat) :
    (resize_and_reset_vector v n).length = max v.length n := by
  unfold resize_and_reset_vector
  split
  · simp [length_reset_vector]; omega
  · omega

theorem getElem?_resize_and_reset_vector (v : List Int) (n i : Nat) :
    (resize_and_reset_vector v n)[i]? =
      if i < v.length then v[i]? else if i < n then some missing_int32 else none := by
  unfold resize_and_reset_vector
  split
  case isTrue h =>
    rw [getElem?_reset_vector]
    by_cases hi : i < v.length
    · rw [List.getElem?_append_left hi]
      simp [hi, Nat.not_le_of_lt hi]
    · rw [if_neg hi]
      by_cases hin : i < n
      · rw [List.getElem?_append_right (by omega), List.getElem?_replicate,
          if_pos (by omega : i - v.length < n - v.length), if_pos hin]
        simp [Nat.le_of_not_lt hi]
      · rw [List.getElem?_eq_none (by simp; omega), if_neg hin]
        rfl
  case isFalse h =>
    by_cases hi : i < v.length
    · simp [hi]
    · rw [List.getElem?_eq_none (by omega), if_neg hi, if_neg (by omega)]

/-! ### Physical lemmas about `get_lut_value` / `set_lut_value` -/

/-- The guard shared by `get_lut_value` and `set_lut_value` (the four
`assert`s). -/
def lut_in_bounds (lut : LutMatrix) (r c : Int) : Prop :=
  0 ≤ r ∧ r < (lut.length : Int) ∧ 0 ≤ c ∧
    c < (((lut.getD r.toNat []).length : Nat) : Int)

instance (lut : LutMatrix) (r c : Int) : Decidable (lut_in_bounds lut r c) := by
  unfold lut_in_bounds; infer_instance

theorem get_lut_value_eq_if (lut : LutMatrix) (r c : Int) :
    get_lut_value lut r c =
      if lut_in_bounds lut r c then
        some ((lut.getD r.toNat []).getD c.toNat 0)
      else none := rfl

theorem set_lut_value_eq_if (lut : LutMatrix) (r c v : Int) :
    set_lut_value lut r c v =
      if lut_in_bounds lut r c then
        some (lut.set r.toNat ((lut.getD r.toNat []).set c.toNat v))
      else none := rfl

theorem get_lut_value_isSome_iff (lut : LutMatrix) (r c : Int) :
    (get_lut_value lut r c).isSome ↔ lut_in_bounds lut r c := by
  rw [get_lut_value_eq_if]
  split
  case isTrue h => exact iff_of_true rfl h
  case isFalse h => exact iff_of_false (by simp) h

theorem set_lut_value_isSome_iff (lut : LutMatrix) (r c v : Int) :
    (set_lut_value lut r c v).isSome ↔ lut_in_bounds lut r c := by
  rw [set_lut_value_eq_if]
  split
  case isTrue h => exact iff_of_true rfl h
  case isFalse h => exact iff_of_false (by simp) h

theorem set_lut_value_eq_some_iff (lut : LutMatrix) (r c v : Int) (lut' : LutMatrix) :
    set_lut_value lut r c v = some lut' ↔
      (lut_in_bounds lut r c ∧
       lut' = lut.set r.toNat ((lut.getD r.toNat []).set c.toNat v)) := by
  rw [set_lut_value_eq_if]
  split
  case isTrue h =>
    constructor
    · intro he
      exact ⟨h, (Option.some_inj.mp he).symm⟩
    · rintro ⟨-, rfl⟩
      rfl
  case isFalse h =>
    constructor
    · intro he
      cases he
    · rintro ⟨hc, -⟩
      exact absurd hc h

theorem set_lut_value_length (lut : LutMatrix) (r c v : Int) (lut' : LutMatrix)
    (h : set_lut_value lut r c v = some lut') :
    lut'.length = lut.length ∧
      ∀ j : Nat, (lut'.getD j []).length = (lut.getD j []).length := by
  rw [set_lut_value_eq_some_iff] at h
  obtain ⟨-, rfl⟩ := h
  refine ⟨by simp, ?_⟩
  intro j
  by_cases hj : j = r.toNat
  · subst hj
    by_cases hjl : r.toNat < lut.length
    · simp [List.getD_eq_getElem?_getD, List.getElem?_set_self hjl]
    · rw [List.getD_eq_getElem?_getD, List.getD_eq_getElem?_getD,
        List.getElem?_eq_none (by omega : lut.length ≤ r.toNat),
        List.getElem?_eq_none (by simpa using (by omega : lut.length ≤ r.toNat))]
  · simp [List.getD_eq_getElem?_getD, List.getElem?_set_ne (by omega : r.toNat ≠ j)]

theorem lut_in_bounds_toNat (lut : LutMatrix) (r c : Int)
    (h : lut_in_bounds lut r c) :
    r.toNat < lut.length ∧ c.toNat < (lut.getD r.toNat []).length := by
  obtain ⟨h1, h2, h3, h4⟩ := h
  omega

theorem get_lut_value_set_lut_value_self (lut : LutMatrix) (r c v : Int)
    (lut' : LutMatrix) (h : set_lut_value lut r c v = some lut') :
    get_lut_value lut' r c = some v := by
  rw [set_lut_value_eq_some_iff] at h
  obtain ⟨hb, rfl⟩ := h
  obtain ⟨hrn, hcn⟩ := lut_in_bounds_toNat lut r c hb
  obtain ⟨hr0, hrl, hc0, hcl⟩ := hb
  rw [get_lut_value_eq_if, if_pos]
  · congr 1
    simp [List.getD_eq_getElem?_getD, List.getElem?_set_self hrn,
      List.getElem?_set_self (by simpa using hcn)]
  · refine ⟨hr0, by simpa using hrl, hc0, ?_⟩
    simp only [List.getD_eq_getElem?_getD, List.getElem?_set_self hrn, Option.getD_some]
    simpa using hcl

/-- Rectangularity with given extents: `rows` rows, each of length `cols`. -/
def lut_shape (lut : LutMatrix) (rows cols : Nat) : Prop :=
  lut.length = rows ∧ ∀ j : Nat, j < rows → (lut.getD j []).length = cols

instance (lut : LutMatrix) (rows cols : Nat) : Decidable (lut_shape lut rows cols) := by
  unfold lut_shape; infer_instance

theorem lut_in_bounds_iff_of_shape (lut : LutMatrix) (rows cols : Nat)
    (h : lut_shape lut rows cols) (r c : Int) :
    lut_in_bounds lut r c ↔
      (0 ≤ r ∧ r < (rows : Int) ∧ 0 ≤ c ∧ c < (cols : Int)) := by
  obtain ⟨h1, h2⟩ := h
  unfold lut_in_bounds
  rw [h1]
  constructor
  · rintro ⟨a, b, cc, d⟩
    rw [h2 r.toNat (by omega)] at d
    exact ⟨a, b, cc, d⟩
  · rintro ⟨a, b, cc, d⟩
    rw [h2 r.toNat (by omega)]
    exact ⟨a, b, cc, d⟩

theorem lut_shape_of_lengths (lut lut' : LutMatrix) (rows cols : Nat)
    (h : lut_shape lut rows cols) (hlen : lut'.length = lut.length)
    (hrow : ∀ j : Nat, (lut'.getD j []).length = (lut.getD j []).length) :
    lut_shape lut' rows cols := by
  obtain ⟨h1, h2⟩ := h
  exact ⟨by omega, fun j hj => by rw [hrow j]; exact h2 j hj⟩

theorem get_lut_value_set_lut_value_ne (lut : LutMatrix) (r c v : Int)
    (lut' : LutMatrix) (h : set_lut_value lut r c v = some lut') (r' c' : Int)
    (hne : ¬(r' = r ∧ c' = c)) :
    get_lut_value lut' r' c' = get_lut_value lut r' c' := by
  have hlen := set_lut_value_length lut r c v lut' h
  rw [set_lut_value_eq_some_iff] at h
  obtain ⟨hb, rfl⟩ := h
  obtain ⟨hrn, hcn⟩ := lut_in_bounds_toNat lut r c hb
  obtain ⟨hr0, hrl, hc0, hcl⟩ := hb
  have hbiff : lut_in_bounds (lut.set r.toNat ((lut.getD r.toNat []).set c.toNat v)) r' c' ↔
      lut_in_bounds lut r' c' := by
    unfold lut_in_bounds
    rw [hlen.1, hlen.2 r'.toNat]
  rw [get_lut_value_eq_if, get_lut_value_eq_if]
  by_cases hg : lut_in_bounds lut r' c'
  · rw [if_pos (hbiff.mpr hg), if_pos hg]
    congr 1
    by_cases hrr : r'.toNat = r.toNat
    · have hr'r : r' = r := by
        obtain ⟨h1, h2, h3, h4⟩ := hg
        omega
      have hcc : c.toNat ≠ c'.toNat := by
        intro hcn'
        obtain ⟨h1, h2, h3, h4⟩ := hg
        exact hne ⟨hr'r, by omega⟩
      rw [hrr]
      simp only [List.getD_eq_getElem?_getD, List.getElem?_set_self hrn, Option.getD_some]
      simp [List.getElem?_set_ne hcc]
    · simp [List.getD_eq_getElem?_getD, List.getElem?_set_ne (by omega : r.toNat ≠ r'.toNat)]
  · rw [if_neg (fun hg' => hg (hbiff.mp hg')), if_neg hg]

theorem getD_mapIdx_row (L : LutMatrix) (f : Nat → List Int → List Int) (j : Nat)
    (hj : j < L.length) : (L.mapIdx f).getD j [] = f j (L.getD j []) := by
  rw [List.getD_eq_getElem?_getD, List.getElem?_mapIdx, List.getElem?_eq_getElem hj,
    Option.map_some', Option.getD_some, List.getD_eq_getElem?_getD,
    List.getElem?_eq_getElem hj, Option.getD_some]

/-- Full description of `resize_and_reset_lut` in the growing case: starting
from a rectangular `r x c` matrix whose extent counters are consistent, a
request for `R x C` with `r ≤ R` and `c ≤ C` yields a rectangular `R x C`
matrix that keeps every old cell and fills every new cell with the sentinel,
and sets both counters to the request. -/
theorem resize_and_reset_lut_grow (lut : LutMatrix) (r c R C rv cv : Nat)
    (hs : lut_shape lut r c) (hR : r ≤ R) (hC : c ≤ C)
    (hrv : rv = r ∨ rv = R) (hcv : cv = c ∨ cv = C) :
    lut_shape (resize_and_reset_lut lut R C rv cv).1 R C ∧
    (resize_and_reset_lut lut R C rv cv).2.1 = R ∧
    (resize_and_reset_lut lut R C rv cv).2.2 = C ∧
    (∀ i j : Nat, i < R → j < C →
      ((resize_and_reset_lut lut R C rv cv).1.getD i []).getD j 0 =
        if i < r ∧ j < c then (lut.getD i []).getD j 0 else missing_int32) := by
  obtain ⟨hlen, hrow⟩ := hs
  set L1 := (if lut.length < R then lut ++ List.replicate (R - lut.length) ([] : List Int)
    else lut) with hL1def
  set ovs := (if 0 < L1.length then (L1.getD 0 []).length else 0) with hovsdef
  have hdef1 : (resize_and_reset_lut lut R C rv cv).1 =
      L1.mapIdx (fun i row =>
        if (if ovs < C then 0 else lut.length) ≤ i ∧ i < R then
          resize_and_reset_vector row (if ovs < C then C else ovs)
        else row) := rfl
  have hdef2 : (resize_and_reset_lut lut R C rv cv).2.1 =
      (if lut.length < R then R else rv) := rfl
  have hdef3 : (resize_and_reset_lut lut R C rv cv).2.2 =
      (if ovs < C then C else cv) := rfl
  have hL1len : L1.length = R := by
    rw [hL1def]
    split
    · simp
      omega
    · omega
  have hL1get : ∀ i : Nat, i < R →
      L1.getD i [] = if i < r then lut.getD i [] else [] := by
    intro i hi
    rw [hL1def]
    split
    case isTrue h =>
      by_cases hir : i < r
      · rw [if_pos hir, List.getD_eq_getElem?_getD,
          List.getElem?_append_left (by omega), ← List.getD_eq_getElem?_getD]
      · rw [if_neg hir, List.getD_eq_getElem?_getD,
          List.getElem?_append_right (by omega), List.getElem?_replicate,
          if_pos (by omega)]
        rfl
    case isFalse h =>
      rw [if_pos (by omega)]
  have hOVS : ovs = if 0 < r then c else 0 := by
    rw [hovsdef]
    by_cases hr0 : 0 < r
    · rw [if_pos (by omega : 0 < L1.length), hL1get 0 (by omega), if_pos hr0,
        hrow 0 hr0, if_pos hr0]
    · by_cases hR0 : 0 < R
      · rw [if_pos (by omega : 0 < L1.length), hL1get 0 hR0, if_neg hr0, if_neg hr0]
        rfl
      · rw [if_neg (by omega : ¬ 0 < L1.length), if_neg hr0]
  refine ⟨⟨?_, ?_⟩, ?_, ?_, ?_⟩
  · rw [hdef1, List.length_mapIdx]
    exact hL1len
  · intro j hj
    rw [hdef1, getD_mapIdx_row L1 _ j (by omega), hOVS, hL1get j hj]
    by_cases hw : (if 0 < r then c else 0) < C
    · simp only [if_pos hw]
      rw [if_pos ⟨Nat.zero_le j, hj⟩, length_resize_and_reset_vector]
      by_cases hjr : j < r
      · rw [if_pos hjr, hrow j hjr]
        by_cases hr0 : 0 < r
        · rw [if_pos hr0] at hw
          omega
        · omega
      · rw [if_neg hjr]
        simp only [List.length_nil]
        omega
    · have hcC : c = C := by
        by_cases hr0 : 0 < r
        · rw [if_pos hr0] at hw
          omega
        · rw [if_neg hr0] at hw
          omega
      simp only [if_neg hw]
      by_cases hjr : j < r
      · rw [if_neg (by omega : ¬(lut.length ≤ j ∧ j < R)), if_pos hjr, hrow j hjr]
        exact hcC
      · rw [if_pos ⟨by omega, hj⟩, if_neg hjr, length_resize_and_reset_vector]
        have hnvs : (if 0 < r then c else 0) = c := by
          by_cases hr0 : 0 < r
          · rw [if_pos hr0]
          · rw [if_neg hr0] at hw ⊢
            omega
        rw [hnvs]
        simp only [List.length_nil]
        omega
  · rw [hdef2]
    split
    · rfl
    · rcases hrv with rfl | rfl
      · omega
      · rfl
  · rw [hdef3, hOVS]
    by_cases hw : (if 0 < r then c else 0) < C
    · rw [if_pos hw]
    · have hcC : c = C := by
        by_cases hr0 : 0 < r
        · rw [if_pos hr0] at hw
          omega
        · rw [if_neg hr0] at hw
          omega
      rw [if_neg hw]
      rcases hcv with rfl | rfl
      · exact hcC
      · rfl
  · intro i j hi hj
    rw [hdef1, getD_mapIdx_row L1 _ i (by omega), hOVS, hL1get i hi]
    by_cases hw : (if 0 < r then c else 0) < C
    · simp only [if_pos hw]
      rw [if_pos ⟨Nat.zero_le i, hi⟩]
      by_cases hir : i < r
      · rw [if_pos hir, List.getD_eq_getElem?_getD, getElem?_resize_and_reset_vector,
          hrow i hir]
        by_cases hjc : j < c
        · rw [if_pos hjc, if_pos ⟨hir, hjc⟩, ← List.getD_eq_getElem?_getD]
        · rw [if_neg hjc, if_pos hj, if_neg (fun hp => hjc hp.2)]
          rfl
      · rw [if_neg hir, List.getD_eq_getElem?_getD, getElem?_resize_and_reset_vector]
        simp only [List.length_nil]
        rw [if_neg (by omega : ¬ j < 0), if_pos hj,
          if_neg (fun hp => hir hp.1)]
        rfl
    · have hcC : c = C := by
        by_cases hr0 : 0 < r
        · rw [if_pos hr0] at hw
          omega
        · rw [if_neg hr0] at hw
          omega
      have hnvs : (if 0 < r then c else 0) = c := by
        by_cases hr0 : 0 < r
        · rw [if_pos hr0]
        · rw [if_neg hr0] at hw ⊢
          omega
      simp only [if_neg hw]
      rw [hnvs]
      by_cases hir : i < r
      · rw [if_neg (by omega : ¬(lut.length ≤ i ∧ i < R)), if_pos hir,
          if_pos ⟨hir, by omega⟩]
      · rw [if_pos ⟨by omega, hi⟩, if_neg hir, List.getD_eq_getElem?_getD,
          getElem?_resize_and_reset_vector]
        simp only [List.length_nil]
        rw [if_neg (by omega : ¬ j < 0), if_pos (by omega : j < c),
          if_neg (fun hp => hir hp.1)]
        rfl

/-- Reading from a grown matrix: cells that were in bounds keep their value,
cells that are newly in bounds read the sentinel. -/
theorem get_lut_value_of_grow (lutA lutB : LutMatrix) (rA cA rB cB : Nat)
    (hA : lut_shape lutA rA cA) (hB : lut_shape lutB rB cB)
    (hrs : rA ≤ rB) (hcs : cA ≤ cB)
    (hcell : ∀ i j : Nat, i < rB → j < cB → (lutB.getD i []).getD j 0 =
      if i < rA ∧ j < cA then (lutA.getD i []).getD j 0 else missing_int32)
    (r c : Int) :
    (lut_in_bounds lutA r c → get_lut_value lutB r c = get_lut_value lutA r c) ∧
    (lut_in_bounds lutB r c → ¬ lut_in_bounds lutA r c →
      get_lut_value lutB r c = some missing_int32) := by
  constructor
  · intro hbA
    have hlog := (lut_in_bounds_iff_of_shape lutA rA cA hA r c).mp hbA
    have hbB : lut_in_bounds lutB r c := by
      rw [lut_in_bounds_iff_of_shape lutB rB cB hB r c]
      obtain ⟨a, b, cc, d⟩ := hlog
      refine ⟨a, by omega, cc, by omega⟩
    rw [get_lut_value_eq_if, get_lut_value_eq_if, if_pos hbB, if_pos hbA]
    congr 1
    rw [hcell r.toNat c.toNat (by omega) (by omega),
      if_pos (by omega : r.toNat < rA ∧ c.toNat < cA)]
  · intro hbB hbA
    have hlog := (lut_in_bounds_iff_of_shape lutB rB cB hB r c).mp hbB
    rw [lut_in_bounds_iff_of_shape lutA rA cA hA r c] at hbA
    rw [get_lut_value_eq_if, if_pos hbB]
    congr 1
    rw [hcell r.toNat c.toNat (by omega) (by omega),
      if_neg (by omega : ¬(r.toNat < rA ∧ c.toNat < cA))]

/-- Reading from an all-sentinel matrix. -/
theorem get_lut_value_all_missing (lut : LutMatrix) (rows cols : Nat)
    (h : lut_shape lut rows cols)
    (hcell : ∀ i j : Nat, i < rows → j < cols →
      (lut.getD i []).getD j 0 = missing_int32) (r c : Int) :
    get_lut_value lut r c =
      if 0 ≤ r ∧ r < (rows : Int) ∧ 0 ≤ c ∧ c < (cols : Int) then
        some missing_int32
      else none := by
  rw [get_lut_value_eq_if]
  by_cases hb : lut_in_bounds lut r c
  · have hlog := (lut_in_bounds_iff_of_shape lut rows cols h r c).mp hb
    rw [if_pos hb, if_pos hlog]
    congr 1
    obtain ⟨a, b, cc, d⟩ := hlog
    exact hcell r.toNat c.toNat (by omega) (by omega)
  · rw [if_neg hb, if_neg (fun hlog =>
      hb ((lut_in_bounds_iff_of_shape lut rows cols h r c).mpr hlog))]

/-- `resize_and_reset_lut` never shrinks the physical extents, for every
argument combination. -/
theorem resize_and_reset_lut_never_shrinks (lut : LutMatrix) (R C rv cv : Nat) :
    lut.length ≤ (resize_and_reset_lut lut R C rv cv).1.length ∧
    ∀ j : Nat, (lut.getD j []).length ≤
      ((resize_and_reset_lut lut R C rv cv).1.getD j []).length := by
  set L1 := (if lut.length < R then lut ++ List.replicate (R - lut.length) ([] : List Int)
    else lut) with hL1def
  set ovs := (if 0 < L1.length then (L1.getD 0 []).length else 0) with hovsdef
  have hdef1 : (resize_and_reset_lut lut R C rv cv).1 =
      L1.mapIdx (fun i row =>
        if (if ovs < C then 0 else lut.length) ≤ i ∧ i < R then
          resize_and_reset_vector row (if ovs < C then C else ovs)
        else row) := rfl
  have hL1len : lut.length ≤ L1.length := by
    rw [hL1def]
    split
    · simp
    · omega
  have hL1get : ∀ i : Nat, i < lut.length → L1.getD i [] = lut.getD i [] := by
    intro i hi
    rw [hL1def]
    split
    · rw [List.getD_eq_getElem?_getD, List.getElem?_append_left hi,
        ← List.getD_eq_getElem?_getD]
    · rfl
  constructor
  · rw [hdef1, List.length_mapIdx]
    exact hL1len
  · intro j
    by_cases hj : j < lut.length
    · rw [hdef1, getD_mapIdx_row L1 _ j (by omega), hL1get j hj]
      by_cases hw : ovs < C
      · simp only [if_pos hw]
        split
        · rw [length_resize_and_reset_vector]
          omega
        · omega
      · simp only [if_neg hw]
        split
        · rw [length_resize_and_reset_vector]
          omega
        · omega
    · rw [List.getD_eq_getElem?_getD lut, List.getElem?_eq_none (by omega)]
      simp

/-! ### State-level well-formedness and per-operation specifications -/

namespace MergedVCFLUTBase

/-- Physical row count of the inputs-to-merged matrix, per its layout flag. -/
def i2m_rows (s : MergedVCFLUTBase) : Nat :=
  if s.inputs_2_merged_LUT_is_input_ordered then s.m_num_input_vcfs
  else s.m_num_merged_fields

/-- Physical column count of the inputs-to-merged matrix. -/
def i2m_cols (s : MergedVCFLUTBase) : Nat :=
  if s.inputs_2_merged_LUT_is_input_ordered then s.m_num_merged_fields
  else s.m_num_input_vcfs

/-- Physical row count of the merged-to-inputs matrix. -/
def m2i_rows (s : MergedVCFLUTBase) : Nat :=
  if s.merged_2_inputs_LUT_is_input_ordered then s.m_num_input_vcfs
  else s.m_num_merged_fields

/-- Physical column count of the merged-to-inputs matrix. -/
def m2i_cols (s : MergedVCFLUTBase) : Nat :=
  if s.merged_2_inputs_LUT_is_input_ordered then s.m_num_merged_fields
  else s.m_num_input_vcfs

/-- Well-formedness: each matrix is rectangular with the extents recorded in
the member counters, translated through its layout flag. -/
def wf (s : MergedVCFLUTBase) : Prop :=
  lut_shape s.m_inputs_2_merged_lut s.i2m_rows s.i2m_cols ∧
  lut_shape s.m_merged_2_inputs_lut s.m2i_rows s.m2i_cols

instance (s : MergedVCFLUTBase) : Decidable s.wf := by
  unfold wf; infer_instance

/-- The logical input-VCF index (an `unsigned`, converted to `int` at the
assert sites) is within the table's input extent. -/
def input_in_bounds (s : MergedVCFLUTBase) (i : Nat) : Prop :=
  0 ≤ toInt32 i ∧ toInt32 i < (s.m_num_input_vcfs : Int)

/-- A logical field index (an `int`) is within the table's merged extent. -/
def merged_in_bounds (s : MergedVCFLUTBase) (l : Int) : Prop :=
  0 ≤ l ∧ l < (s.m_num_merged_fields : Int)

instance (s : MergedVCFLUTBase) (i : Nat) : Decidable (s.input_in_bounds i) := by
  unfold input_in_bounds; infer_instance

instance (s : MergedVCFLUTBase) (l : Int) : Decidable (s.merged_in_bounds l) := by
  unfold merged_in_bounds; infer_instance

theorem get_merged_isSome_iff (s : MergedVCFLUTBase) (hwf : s.wf) (i : Nat)
    (l : Int) :
    (s.get_merged_idx_for_input i l).isSome ↔
      (s.input_in_bounds i ∧ s.merged_in_bounds l) := by
  unfold get_merged_idx_for_input
  unfold wf i2m_rows i2m_cols at hwf
  unfold input_in_bounds merged_in_bounds
  split
  case isTrue hfl =>
    rw [hfl] at hwf
    rw [get_lut_value_isSome_iff,
      lut_in_bounds_iff_of_shape _ _ _ (by simpa using hwf.1)]
    tauto
  case isFalse hfl =>
    rw [Bool.not_eq_true] at hfl
    rw [hfl] at hwf
    rw [get_lut_value_isSome_iff,
      lut_in_bounds_iff_of_shape _ _ _ (by simpa using hwf.1)]
    tauto

theorem get_input_isSome_iff (s : MergedVCFLUTBase) (hwf : s.wf) (i : Nat)
    (m : Int) :
    (s.get_input_idx_for_merged i m).isSome ↔
      (s.input_in_bounds i ∧ s.merged_in_bounds m) := by
  unfold get_input_idx_for_merged
  unfold wf m2i_rows m2i_cols at hwf
  unfold input_in_bounds merged_in_bounds
  split
  case isTrue hfl =>
    rw [hfl] at hwf
    rw [get_lut_value_isSome_iff,
      lut_in_bounds_iff_of_shape _ _ _ (by simpa using hwf.2)]
    tauto
  case isFalse hfl =>
    rw [Bool.not_eq_true] at hfl
    rw [hfl] at hwf
    rw [get_lut_value_isSome_iff,
      lut_in_bounds_iff_of_shape _ _ _ (by simpa using hwf.2)]
    tauto

theorem get_merged_congr (s s' : MergedVCFLUTBase)
    (hfl : s'.inputs_2_merged_LUT_is_input_ordered = s.inputs_2_merged_LUT_is_input_ordered)
    (hlut : s'.m_inputs_2_merged_lut = s.m_inputs_2_merged_lut) :
    ∀ i l, s'.get_merged_idx_for_input i l = s.get_merged_idx_for_input i l := by
  intro i l
  unfold get_merged_idx_for_input
  rw [hfl, hlut]

theorem get_input_congr (s s' : MergedVCFLUTBase)
    (hfl : s'.merged_2_inputs_LUT_is_input_ordered = s.merged_2_inputs_LUT_is_input_ordered)
    (hlut : s'.m_merged_2_inputs_lut = s.m_merged_2_inputs_lut) :
    ∀ i m, s'.get_input_idx_for_merged i m = s.get_input_idx_for_merged i m := by
  intro i m
  unfold get_input_idx_for_merged
  rw [hfl, hlut]

/-- Everything `set_merged_idx_for_input` guarantees about its result:
only the inputs-to-merged matrix changes, cell-for-cell as described. -/
theorem set_merged_spec (s : MergedVCFLUTBase) (i : Nat) (l m : Int)
    (s' : MergedVCFLUTBase) (h : s.set_merged_idx_for_input i l m = some s') :
    s'.inputs_2_merged_LUT_is_input_ordered = s.inputs_2_merged_LUT_is_input_ordered ∧
    s'.merged_2_inputs_LUT_is_input_ordered = s.merged_2_inputs_LUT_is_input_ordered ∧
    s'.m_num_input_vcfs = s.m_num_input_vcfs ∧
    s'.m_num_merged_fields = s.m_num_merged_fields ∧
    s'.m_merged_2_inputs_lut = s.m_merged_2_inputs_lut ∧
    (∀ i' l', s'.get_merged_idx_for_input i' l' =
      if toInt32 i' = toInt32 i ∧ l' = l then some m
      else s.get_merged_idx_for_input i' l') ∧
    s'.m_inputs_2_merged_lut.length = s.m_inputs_2_merged_lut.length ∧
    (∀ j : Nat, (s'.m_inputs_2_merged_lut.getD j []).length =
      (s.m_inputs_2_merged_lut.getD j []).length) := by
  unfold set_merged_idx_for_input at h
  split at h
  case isTrue hfl =>
    rw [Option.map_eq_some'] at h
    obtain ⟨lut', hset, rfl⟩ := h
    have hlen := set_lut_value_length _ _ _ _ _ hset
    refine ⟨rfl, rfl, rfl, rfl, rfl, ?_, hlen.1, hlen.2⟩
    intro i' l'
    unfold get_merged_idx_for_input
    simp only [hfl, if_pos]
    by_cases hc : toInt32 i' = toInt32 i ∧ l' = l
    · rw [if_pos hc, hc.1, hc.2]
      exact get_lut_value_set_lut_value_self _ _ _ _ _ hset
    · rw [if_neg hc]
      exact get_lut_value_set_lut_value_ne _ _ _ _ _ hset _ _ hc
  case isFalse hfl =>
    rw [Option.map_eq_some'] at h
    obtain ⟨lut', hset, rfl⟩ := h
    have hlen := set_lut_value_length _ _ _ _ _ hset
    refine ⟨rfl, rfl, rfl, rfl, rfl, ?_, hlen.1, hlen.2⟩
    intro i' l'
    unfold get_merged_idx_for_input
    simp only [hfl, if_neg, Bool.false_eq_true, if_false]
    by_cases hc : toInt32 i' = toInt32 i ∧ l' = l
    · rw [if_pos hc, hc.1, hc.2]
      exact get_lut_value_set_lut_value_self _ _ _ _ _ hset
    · rw [if_neg hc]
      exact get_lut_value_set_lut_value_ne _ _ _ _ _ hset _ _
        (fun hp => hc ⟨hp.2, hp.1⟩)

/-- Everything `set_input_idx_for_merged` guarantees about its result:
only the merged-to-inputs matrix changes, cell-for-cell as described. -/
theorem set_input_spec (s : MergedVCFLUTBase) (i : Nat) (l m : Int)
    (s' : MergedVCFLUTBase) (h : s.set_input_idx_for_merged i l m = some s') :
    s'.inputs_2_merged_LUT_is_input_ordered = s.inputs_2_merged_LUT_is_input_ordered ∧
    s'.merged_2_inputs_LUT_is_input_ordered = s.merged_2_inputs_LUT_is_input_ordered ∧
    s'.m_num_input_vcfs = s.m_num_input_vcfs ∧
    s'.m_num_merged_fields = s.m_num_merged_fields ∧
    s'.m_inputs_2_merged_lut = s.m_inputs_2_merged_lut ∧
    (∀ i' m', s'.get_input_idx_for_merged i' m' =
      if toInt32 i' = toInt32 i ∧ m' = m then some l
      else s.get_input_idx_for_merged i' m') ∧
    s'.m_merged_2_inputs_lut.length = s.m_merged_2_inputs_lut.length ∧
    (∀ j : Nat, (s'.m_merged_2_inputs_lut.getD j []).length =
      (s.m_merged_2_inputs_lut.getD j []).length) := by
  unfold set_input_idx_for_merged at h
  split at h
  case isTrue hfl =>
    rw [Option.map_eq_some'] at h
    obtain ⟨lut', hset, rfl⟩ := h
    have hlen := set_lut_value_length _ _ _ _ _ hset
    refine ⟨rfl, rfl, rfl, rfl, rfl, ?_, hlen.1, hlen.2⟩
    intro i' m'
    unfold get_input_idx_for_merged
    simp only [hfl, if_pos]
    by_cases hc : toInt32 i' = toInt32 i ∧ m' = m
    · rw [if_pos hc, hc.1, hc.2]
      exact get_lut_value_set_lut_value_self _ _ _ _ _ hset
    · rw [if_neg hc]
      exact get_lut_value_set_lut_value_ne _ _ _ _ _ hset _ _ hc
  case isFalse hfl =>
    rw [Option.map_eq_some'] at h
    obtain ⟨lut', hset, rfl⟩ := h
    have hlen := set_lut_value_length _ _ _ _ _ hset
    refine ⟨rfl, rfl, rfl, rfl, rfl, ?_, hlen.1, hlen.2⟩
    intro i' m'
    unfold get_input_idx_for_merged
    simp only [hfl, if_neg, Bool.false_eq_true, if_false]
    by_cases hc : toInt32 i' = toInt32 i ∧ m' = m
    · rw [if_pos hc, hc.1, hc.2]
      exact get_lut_value_set_lut_value_self _ _ _ _ _ hset
    · rw [if_neg hc]
      exact get_lut_value_set_lut_value_ne _ _ _ _ _ hset _ _
        (fun hp => hc ⟨hp.2, hp.1⟩)

theorem set_merged_isSome_iff (s : MergedVCFLUTBase) (hwf : s.wf) (i : Nat)
    (l m : Int) :
    (s.set_merged_idx_for_input i l m).isSome ↔
      (s.input_in_bounds i ∧ s.merged_in_bounds l) := by
  unfold set_merged_idx_for_input
  unfold wf i2m_rows i2m_cols at hwf
  unfold input_in_bounds merged_in_bounds
  split
  case isTrue hfl =>
    rw [hfl] at hwf
    rw [Option.isSome_map', set_lut_value_isSome_iff,
      lut_in_bounds_iff_of_shape _ _ _ (by simpa using hwf.1)]
    tauto
  case isFalse hfl =>
    rw [Bool.not_eq_true] at hfl
    rw [hfl] at hwf
    rw [Option.isSome_map', set_lut_value_isSome_iff,
      lut_in_bounds_iff_of_shape _ _ _ (by simpa using hwf.1)]
    tauto

theorem set_input_isSome_iff (s : MergedVCFLUTBase) (hwf : s.wf) (i : Nat)
    (l m : Int) :
    (s.set_input_idx_for_merged i l m).isSome ↔
      (s.input_in_bounds i ∧ s.merged_in_bounds m) := by
  unfold set_input_idx_for_merged
  unfold wf m2i_rows m2i_cols at hwf
  unfold input_in_bounds merged_in_bounds
  split
  case isTrue hfl =>
    rw [hfl] at hwf
    rw [Option.isSome_map', set_lut_value_isSome_iff,
      lut_in_bounds_iff_of_shape _ _ _ (by simpa using hwf.2)]
    tauto
  case isFalse hfl =>
    rw [Bool.not_eq_true] at hfl
    rw [hfl] at hwf
    rw [Option.isSome_map', set_lut_value_isSome_iff,
      lut_in_bounds_iff_of_shape _ _ _ (by simpa using hwf.2)]
    tauto

theorem set_merged_wf (s : MergedVCFLUTBase) (i : Nat) (l m : Int)
    (s' : MergedVCFLUTBase) (h : s.set_merged_idx_for_input i l m = some s')
    (hwf : s.wf) : s'.wf := by
  obtain ⟨hf1, hf2, hnI, hnM, hm2i, -, hlen, hrow⟩ := set_merged_spec s i l m s' h
  have hr : s'.i2m_rows = s.i2m_rows := by unfold i2m_rows; rw [hf1, hnI, hnM]
  have hc : s'.i2m_cols = s.i2m_cols := by unfold i2m_cols; rw [hf1, hnI, hnM]
  have hr2 : s'.m2i_rows = s.m2i_rows := by unfold m2i_rows; rw [hf2, hnI, hnM]
  have hc2 : s'.m2i_cols = s.m2i_cols := by unfold m2i_cols; rw [hf2, hnI, hnM]
  refine ⟨?_, ?_⟩
  · rw [hr, hc]
    exact lut_shape_of_lengths _ _ _ _ hwf.1 hlen hrow
  · rw [hr2, hc2, hm2i]
    exact hwf.2

theorem set_input_wf (s : MergedVCFLUTBase) (i : Nat) (l m : Int)
    (s' : MergedVCFLUTBase) (h : s.set_input_idx_for_merged i l m = some s')
    (hwf : s.wf) : s'.wf := by
  obtain ⟨hf1, hf2, hnI, hnM, hi2m, -, hlen, hrow⟩ := set_input_spec s i l m s' h
  have hr : s'.i2m_rows = s.i2m_rows := by unfold i2m_rows; rw [hf1, hnI, hnM]
  have hc : s'.i2m_cols = s.i2m_cols := by unfold i2m_cols; rw [hf1, hnI, hnM]
  have hr2 : s'.m2i_rows = s.m2i_rows := by unfold m2i_rows; rw [hf2, hnI, hnM]
  have hc2 : s'.m2i_cols = s.m2i_cols := by unfold m2i_cols; rw [hf2, hnI, hnM]
  refine ⟨?_, ?_⟩
  · rw [hr, hc, hi2m]
    exact hwf.1
  · rw [hr2, hc2]
    exact lut_shape_of_lengths _ _ _ _ hwf.2 hlen hrow

/-- Everything `add_input_merged_idx_pair` guarantees about its result:
both matrices updated at exactly the two cells of the triple. -/
theorem add_spec (s : MergedVCFLUTBase) (i : Nat) (l m : Int)
    (s' : MergedVCFLUTBase) (h : s.add_input_merged_idx_pair i l m = some s') :
    s'.inputs_2_merged_LUT_is_input_ordered = s.inputs_2_merged_LUT_is_input_ordered ∧
    s'.merged_2_inputs_LUT_is_input_ordered = s.merged_2_inputs_LUT_is_input_ordered ∧
    s'.m_num_input_vcfs = s.m_num_input_vcfs ∧
    s'.m_num_merged_fields = s.m_num_merged_fields ∧
    (∀ i' l', s'.get_merged_idx_for_input i' l' =
      if toInt32 i' = toInt32 i ∧ l' = l then some m
      else s.get_merged_idx_for_input i' l') ∧
    (∀ i' m', s'.get_input_idx_for_merged i' m' =
      if toInt32 i' = toInt32 i ∧ m' = m then some l
      else s.get_input_idx_for_merged i' m') := by
  unfold add_input_merged_idx_pair at h
  rw [Option.bind_eq_some] at h
  obtain ⟨s1, h1, h2⟩ := h
  obtain ⟨af1, af2, anI, anM, am2i, agm, -, -⟩ := set_merged_spec s i l m s1 h1
  obtain ⟨bf1, bf2, bnI, bnM, bi2m, bgi, -, -⟩ := set_input_spec s1 i l m s' h2
  refine ⟨bf1.trans af1, bf2.trans af2, bnI.trans anI, bnM.trans anM, ?_, ?_⟩
  · intro i' l'
    rw [get_merged_congr s1 s' (bf1.trans af1 |>.trans af1.symm) bi2m i' l', agm i' l']
  · intro i' m'
    rw [bgi i' m']
    by_cases hc : toInt32 i' = toInt32 i ∧ m' = m
    · rw [if_pos hc, if_pos hc]
    · rw [if_neg hc, if_neg hc,
        get_input_congr s s1 af2 am2i i' m']

theorem add_isSome_iff (s : MergedVCFLUTBase) (hwf : s.wf) (i : Nat) (l m : Int) :
    (s.add_input_merged_idx_pair i l m).isSome ↔
      (s.input_in_bounds i ∧ s.merged_in_bounds l ∧ s.merged_in_bounds m) := by
  unfold add_input_merged_idx_pair
  constructor
  · intro h
    rw [Option.isSome_iff_exists] at h
    obtain ⟨s', h⟩ := h
    rw [Option.bind_eq_some] at h
    obtain ⟨s1, h1, h2⟩ := h
    have hb1 := (set_merged_isSome_iff s hwf i l m).mp (by rw [h1]; rfl)
    have hwf1 := set_merged_wf s i l m s1 h1 hwf
    have hb2 := (set_input_isSome_iff s1 hwf1 i l m).mp (by rw [h2]; rfl)
    obtain ⟨-, -, anI, anM, -, -, -, -⟩ := set_merged_spec s i l m s1 h1
    unfold input_in_bounds merged_in_bounds at hb2 ⊢
    rw [anI, anM] at hb2
    exact ⟨hb1.1, hb1.2, hb2.2⟩
  · rintro ⟨hbi, hbl, hbm⟩
    have h1 : (s.set_merged_idx_for_input i l m).isSome :=
      (set_merged_isSome_iff s hwf i l m).mpr ⟨hbi, hbl⟩
    rw [Option.isSome_iff_exists] at h1
    obtain ⟨s1, h1⟩ := h1
    have hwf1 := set_merged_wf s i l m s1 h1 hwf
    obtain ⟨-, -, anI, anM, -, -, -, -⟩ := set_merged_spec s i l m s1 h1
    have h2 : (s1.set_input_idx_for_merged i l m).isSome := by
      apply (set_input_isSome_iff s1 hwf1 i l m).mpr
      unfold input_in_bounds merged_in_bounds
      rw [anI, anM]
      exact ⟨hbi, hbm⟩
    rw [h1]
    simpa using h2

theorem add_wf (s : MergedVCFLUTBase) (i : Nat) (l m : Int)
    (s' : MergedVCFLUTBase) (h : s.add_input_merged_idx_pair i l m = some s')
    (hwf : s.wf) : s'.wf := by
  unfold add_input_merged_idx_pair at h
  rw [Option.bind_eq_some] at h
  obtain ⟨s1, h1, h2⟩ := h
  exact set_input_wf s1 i l m s' h2 (set_merged_wf s i l m s1 h1 hwf)

theorem reset_luts_spec (s : MergedVCFLUTBase) :
    (s.reset_luts).inputs_2_merged_LUT_is_input_ordered = s.inputs_2_merged_LUT_is_input_ordered ∧
    (s.reset_luts).merged_2_inputs_LUT_is_input_ordered = s.merged_2_inputs_LUT_is_input_ordered ∧
    (s.reset_luts).m_num_input_vcfs = s.m_num_input_vcfs ∧
    (s.reset_luts).m_num_merged_fields = s.m_num_merged_fields ∧
    (s.reset_luts).m_inputs_2_merged_lut.length = s.m_inputs_2_merged_lut.length ∧
    (s.reset_luts).m_merged_2_inputs_lut.length = s.m_merged_2_inputs_lut.length ∧
    (∀ j : Nat, ((s.reset_luts).m_inputs_2_merged_lut.getD j []).length =
      (s.m_inputs_2_merged_lut.getD j []).length) ∧
    (∀ j : Nat, ((s.reset_luts).m_merged_2_inputs_lut.getD j []).length =
      (s.m_merged_2_inputs_lut.getD j []).length) ∧
    (∀ i l, (s.reset_luts).get_merged_idx_for_input i l =
      (s.get_merged_idx_for_input i l).map (fun _x => missing_int32)) ∧
    (∀ i m, (s.reset_luts).get_input_idx_for_merged i m =
      (s.get_input_idx_for_merged i m).map (fun _x => missing_int32)) := by
  have key : ∀ (lut : LutMatrix) (r c : Int),
      get_lut_value (lut.map (fun v => reset_vector v 0)) r c =
        (get_lut_value lut r c).map (fun _x => missing_int32) := by
    intro lut r c
    have hlen : (lut.map (fun v => reset_vector v 0)).length = lut.length := by simp
    have hrow : ∀ j : Nat,
        ((lut.map (fun v => reset_vector v 0)).getD j []).length =
          (lut.getD j []).length := by
      intro j
      by_cases hj : j < lut.length
      · simp [List.getD_eq_getElem?_getD, List.getElem?_map,
          List.getElem?_eq_getElem hj, length_reset_vector]
      · rw [List.getD_eq_getElem?_getD, List.getD_eq_getElem?_getD,
          List.getElem?_eq_none (by omega : lut.length ≤ j),
          List.getElem?_eq_none (by simpa using (by omega : lut.length ≤ j))]
    have hbiff : lut_in_bounds (lut.map (fun v => reset_vector v 0)) r c ↔
        lut_in_bounds lut r c := by
      unfold lut_in_bounds
      rw [hlen, hrow r.toNat]
    rw [get_lut_value_eq_if, get_lut_value_eq_if]
    by_cases hb : lut_in_bounds lut r c
    · rw [if_pos (hbiff.mpr hb), if_pos hb, Option.map_some']
      congr 1
      obtain ⟨hrn, hcn⟩ := lut_in_bounds_toNat lut r c hb
      have hrowval : (lut.map (fun v => reset_vector v 0)).getD r.toNat [] =
          reset_vector (lut.getD r.toNat []) 0 := by
        rw [List.getD_eq_getElem?_getD, List.getElem?_map,
          List.getElem?_eq_getElem hrn, Option.map_some', Option.getD_some,
          List.getD_eq_getElem?_getD, List.getElem?_eq_getElem hrn, Option.getD_some]
      rw [hrowval, List.getD_eq_getElem?_getD, getElem?_reset_vector,
        List.getElem?_eq_getElem hcn]
      simp
    · rw [if_neg (fun hb' => hb (hbiff.mp hb')), if_neg hb, Option.map_none']
  refine ⟨rfl, rfl, rfl, rfl, by simp [reset_luts], by simp [reset_luts], ?_, ?_, ?_, ?_⟩
  · intro j
    by_cases hj : j < s.m_inputs_2_merged_lut.length
    · simp [reset_luts, List.getD_eq_getElem?_getD, List.getElem?_map,
        List.getElem?_eq_getElem hj, length_reset_vector]
    · rw [List.getD_eq_getElem?_getD, List.getD_eq_getElem?_getD,
        List.getElem?_eq_none (by omega : s.m_inputs_2_merged_lut.length ≤ j),
        List.getElem?_eq_none (by simpa [reset_luts] using (by omega : s.m_inputs_2_merged_lut.length ≤ j))]
  · intro j
    by_cases hj : j < s.m_merged_2_inputs_lut.length
    · simp [reset_luts, List.getD_eq_getElem?_getD, List.getElem?_map,
        List.getElem?_eq_getElem hj, length_reset_vector]
    · rw [List.getD_eq_getElem?_getD, List.getD_eq_getElem?_getD,
        List.getElem?_eq_none (by omega : s.m_merged_2_inputs_lut.length ≤ j),
        List.getElem?_eq_none (by simpa [reset_luts] using (by omega : s.m_merged_2_inputs_lut.length ≤ j))]
  · intro i l
    unfold get_merged_idx_for_input reset_luts
    split <;> exact key _ _ _
  · intro i m
    unfold get_input_idx_for_merged reset_luts
    split <;> exact key _ _ _

theorem reset_luts_wf (s : MergedVCFLUTBase) (hwf : s.wf) : (s.reset_luts).wf := by
  obtain ⟨hf1, hf2, hnI, hnM, hl1, hl2, hr1, hr2, -, -⟩ := reset_luts_spec s
  have ha : (s.reset_luts).i2m_rows = s.i2m_rows := by
    unfold i2m_rows; rw [hf1, hnI, hnM]
  have hb : (s.reset_luts).i2m_cols = s.i2m_cols := by
    unfold i2m_cols; rw [hf1, hnI, hnM]
  have hc : (s.reset_luts).m2i_rows = s.m2i_rows := by
    unfold m2i_rows; rw [hf2, hnI, hnM]
  have hd : (s.reset_luts).m2i_cols = s.m2i_cols := by
    unfold m2i_cols; rw [hf2, hnI, hnM]
  refine ⟨?_, ?_⟩
  · rw [ha, hb]
    exact lut_shape_of_lengths _ _ _ _ hwf.1 hl1 hr1
  · rw [hc, hd]
    exact lut_shape_of_lengths _ _ _ _ hwf.2 hl2 hr2

/-- Effect of `resize_inputs_2_merged_lut_if_needed` in the growing case,
for both layout flags. -/
theorem resize_i2m_wrapper_spec (s : MergedVCFLUTBase) (n m r c : Nat)
    (hsh : lut_shape s.m_inputs_2_merged_lut r c)
    (hr : r ≤ (if s.inputs_2_merged_LUT_is_input_ordered then n else m))
    (hc : c ≤ (if s.inputs_2_merged_LUT_is_input_ordered then m else n))
    (hrv : (if s.inputs_2_merged_LUT_is_input_ordered then s.m_num_input_vcfs
        else s.m_num_merged_fields) = r ∨
      (if s.inputs_2_merged_LUT_is_input_ordered then s.m_num_input_vcfs
        else s.m_num_merged_fields) =
        (if s.inputs_2_merged_LUT_is_input_ordered then n else m))
    (hcv : (if s.inputs_2_merged_LUT_is_input_ordered then s.m_num_merged_fields
        else s.m_num_input_vcfs) = c ∨
      (if s.inputs_2_merged_LUT_is_input_ordered then s.m_num_merged_fields
        else s.m_num_input_vcfs) =
        (if s.inputs_2_merged_LUT_is_input_ordered then m else n)) :
    (s.resize_inputs_2_merged_lut_if_needed n m).inputs_2_merged_LUT_is_input_ordered =
      s.inputs_2_merged_LUT_is_input_ordered ∧
    (s.resize_inputs_2_merged_lut_if_needed n m).merged_2_inputs_LUT_is_input_ordered =
      s.merged_2_inputs_LUT_is_input_ordered ∧
    (s.resize_inputs_2_merged_lut_if_needed n m).m_num_input_vcfs = n ∧
    (s.resize_inputs_2_merged_lut_if_needed n m).m_num_merged_fields = m ∧
    (s.resize_inputs_2_merged_lut_if_needed n m).m_merged_2_inputs_lut =
      s.m_merged_2_inputs_lut ∧
    lut_shape (s.resize_inputs_2_merged_lut_if_needed n m).m_inputs_2_merged_lut
      (if s.inputs_2_merged_LUT_is_input_ordered then n else m)
      (if s.inputs_2_merged_LUT_is_input_ordered then m else n) ∧
    (∀ i j : Nat, i < (if s.inputs_2_merged_LUT_is_input_ordered then n else m) →
      j < (if s.inputs_2_merged_LUT_is_input_ordered then m else n) →
      ((s.resize_inputs_2_merged_lut_if_needed n m).m_inputs_2_merged_lut.getD i []).getD j 0 =
        if i < r ∧ j < c then (s.m_inputs_2_merged_lut.getD i []).getD j 0
        else missing_int32) := by
  cases hfl : s.inputs_2_merged_LUT_is_input_ordered
  case true =>
    have hr' : r ≤ n := by simpa [hfl] using hr
    have hc' : c ≤ m := by simpa [hfl] using hc
    have hrv' : s.m_num_input_vcfs = r ∨ s.m_num_input_vcfs = n := by
      simpa [hfl] using hrv
    have hcv' : s.m_num_merged_fields = c ∨ s.m_num_merged_fields = m := by
      simpa [hfl] using hcv
    obtain ⟨hshape, hR2, hC2, hcells⟩ :=
      resize_and_reset_lut_grow s.m_inputs_2_merged_lut r c n m
        s.m_num_input_vcfs s.m_num_merged_fields hsh hr' hc' hrv' hcv'
    have hs' : s.resize_inputs_2_merged_lut_if_needed n m =
        { s with
          m_inputs_2_merged_lut := (resize_and_reset_lut s.m_inputs_2_merged_lut n m
            s.m_num_input_vcfs s.m_num_merged_fields).1,
          m_num_input_vcfs := (resize_and_reset_lut s.m_inputs_2_merged_lut n m
            s.m_num_input_vcfs s.m_num_merged_fields).2.1,
          m_num_merged_fields := (resize_and_reset_lut s.m_inputs_2_merged_lut n m
            s.m_num_input_vcfs s.m_num_merged_fields).2.2 } := by
      unfold resize_inputs_2_merged_lut_if_needed
      rw [if_pos hfl]
    refine ⟨?_, ?_, ?_, ?_, ?_, ?_, ?_⟩
    · rw [hs']
      exact hfl
    · rw [hs']
    · rw [hs']
      exact hR2
    · rw [hs']
      exact hC2
    · rw [hs']
    · rw [hs', hfl]
      exact hshape
    · rw [hs', hfl]
      exact hcells
  case false =>
    have hr' : r ≤ m := by simpa [hfl] using hr
    have hc' : c ≤ n := by simpa [hfl] using hc
    have hrv' : s.m_num_merged_fields = r ∨ s.m_num_merged_fields = m := by
      simpa [hfl] using hrv
    have hcv' : s.m_num_input_vcfs = c ∨ s.m_num_input_vcfs = n := by
      simpa [hfl] using hcv
    obtain ⟨hshape, hR2, hC2, hcells⟩ :=
      resize_and_reset_lut_grow s.m_inputs_2_merged_lut r c m n
        s.m_num_merged_fields s.m_num_input_vcfs hsh hr' hc' hrv' hcv'
    have hs' : s.resize_inputs_2_merged_lut_if_needed n m =
        { s with
          m_inputs_2_merged_lut := (resize_and_reset_lut s.m_inputs_2_merged_lut m n
            s.m_num_merged_fields s.m_num_input_vcfs).1,
          m_num_merged_fields := (resize_and_reset_lut s.m_inputs_2_merged_lut m n
            s.m_num_merged_fields s.m_num_input_vcfs).2.1,
          m_num_input_vcfs := (resize_and_reset_lut s.m_inputs_2_merged_lut m n
            s.m_num_merged_fields s.m_num_input_vcfs).2.2 } := by
      unfold resize_inputs_2_merged_lut_if_needed
      rw [if_neg (by rw [hfl]; exact Bool.false_ne_true)]
    refine ⟨?_, ?_, ?_, ?_, ?_, ?_, ?_⟩
    · rw [hs']
      exact hfl
    · rw [hs']
    · rw [hs']
      exact hC2
    · rw [hs']
      exact hR2
    · rw [hs']
    · rw [hs', hfl]
      exact hshape
    · rw [hs', hfl]
      exact hcells

/-- Effect of `resize_merged_2_inputs_lut_if_needed` in the growing case,
for both layout flags. -/
theorem resize_m2i_wrapper_spec (s : MergedVCFLUTBase) (n m r c : Nat)
    (hsh : lut_shape s.m_merged_2_inputs_lut r c)
    (hr : r ≤ (if s.merged_2_inputs_LUT_is_input_ordered then n else m))
    (hc : c ≤ (if s.merged_2_inputs_LUT_is_input_ordered then m else n))
    (hrv : (if s.merged_2_inputs_LUT_is_input_ordered then s.m_num_input_vcfs
        else s.m_num_merged_fields) = r ∨
      (if s.merged_2_inputs_LUT_is_input_ordered then s.m_num_input_vcfs
        else s.m_num_merged_fields) =
        (if s.merged_2_inputs_LUT_is_input_ordered then n else m))
    (hcv : (if s.merged_2_inputs_LUT_is_input_ordered then s.m_num_merged_fields
        else s.m_num_input_vcfs) = c ∨
      (if s.merged_2_inputs_LUT_is_input_ordered then s.m_num_merged_fields
        else s.m_num_input_vcfs) =
        (if s.merged_2_inputs_LUT_is_input_ordered then m else n)) :
    (s.resize_merged_2_inputs_lut_if_needed n m).inputs_2_merged_LUT_is_input_ordered =
      s.inputs_2_merged_LUT_is_input_ordered ∧
    (s.resize_merged_2_inputs_lut_if_needed n m).merged_2_inputs_LUT_is_input_ordered =
      s.merged_2_inputs_LUT_is_input_ordered ∧
    (s.resize_merged_2_inputs_lut_if_needed n m).m_num_input_vcfs = n ∧
    (s.resize_merged_2_inputs_lut_if_needed n m).m_num_merged_fields = m ∧
    (s.resize_merged_2_inputs_lut_if_needed n m).m_inputs_2_merged_lut =
      s.m_inputs_2_merged_lut ∧
    lut_shape (s.resize_merged_2_inputs_lut_if_needed n m).m_merged_2_inputs_lut
      (if s.merged_2_inputs_LUT_is_input_ordered then n else m)
      (if s.merged_2_inputs_LUT_is_input_ordered then m else n) ∧
    (∀ i j : Nat, i < (if s.merged_2_inputs_LUT_is_input_ordered then n else m) →
      j < (if s.merged_2_inputs_LUT_is_input_ordered then m else n) →
      ((s.resize_merged_2_inputs_lut_if_needed n m).m_merged_2_inputs_lut.getD i []).getD j 0 =
        if i < r ∧ j < c then (s.m_merged_2_inputs_lut.getD i []).getD j 0
        else missing_int32) := by
  cases hfl : s.merged_2_inputs_LUT_is_input_ordered
  case true =>
    have hr' : r ≤ n := by simpa [hfl] using hr
    have hc' : c ≤ m := by simpa [hfl] using hc
    have hrv' : s.m_num_input_vcfs = r ∨ s.m_num_input_vcfs = n := by
      simpa [hfl] using hrv
    have hcv' : s.m_num_merged_fields = c ∨ s.m_num_merged_fields = m := by
      simpa [hfl] using hcv
    obtain ⟨hshape, hR2, hC2, hcells⟩ :=
      resize_and_reset_lut_grow s.m_merged_2_inputs_lut r c n m
        s.m_num_input_vcfs s.m_num_merged_fields hsh hr' hc' hrv' hcv'
    have hs' : s.resize_merged_2_inputs_lut_if_needed n m =
        { s with
          m_merged_2_inputs_lut := (resize_and_reset_lut s.m_merged_2_inputs_lut n m
            s.m_num_input_vcfs s.m_num_merged_fields).1,
          m_num_input_vcfs := (resize_and_reset_lut s.m_merged_2_inputs_lut n m
            s.m_num_input_vcfs s.m_num_merged_fields).2.1,
          m_num_merged_fields := (resize_and_reset_lut s.m_merged_2_inputs_lut n m
            s.m_num_input_vcfs s.m_num_merged_fields).2.2 } := by
      unfold resize_merged_2_inputs_lut_if_needed
      rw [if_pos hfl]
    refine ⟨?_, ?_, ?_, ?_, ?_, ?_, ?_⟩
    · rw [hs']
    · rw [hs']
      exact hfl
    · rw [hs']
      exact hR2
    · rw [hs']
      exact hC2
    · rw [hs']
    · rw [hs', hfl]
      exact hshape
    · rw [hs', hfl]
      exact hcells
  case false =>
    have hr' : r ≤ m := by simpa [hfl] using hr
    have hc' : c ≤ n := by simpa [hfl] using hc
    have hrv' : s.m_num_merged_fields = r ∨ s.m_num_merged_fields = m := by
      simpa [hfl] using hrv
    have hcv' : s.m_num_input_vcfs = c ∨ s.m_num_input_vcfs = n := by
      simpa [hfl] using hcv
    obtain ⟨hshape, hR2, hC2, hcells⟩ :=
      resize_and_reset_lut_grow s.m_merged_2_inputs_lut r c m n
        s.m_num_merged_fields s.m_num_input_vcfs hsh hr' hc' hrv' hcv'
    have hs' : s.resize_merged_2_inputs_lut_if_needed n m =
        { s with
          m_merged_2_inputs_lut := (resize_and_reset_lut s.m_merged_2_inputs_lut m n
            s.m_num_merged_fields s.m_num_input_vcfs).1,
          m_num_merged_fields := (resize_and_reset_lut s.m_merged_2_inputs_lut m n
            s.m_num_merged_fields s.m_num_input_vcfs).2.1,
          m_num_input_vcfs := (resize_and_reset_lut s.m_merged_2_inputs_lut m n
            s.m_num_merged_fields s.m_num_input_vcfs).2.2 } := by
      unfold resize_merged_2_inputs_lut_if_needed
      rw [if_neg (by rw [hfl]; exact Bool.false_ne_true)]
    refine ⟨?_, ?_, ?_, ?_, ?_, ?_, ?_⟩
    · rw [hs']
    · rw [hs']
      exact hfl
    · rw [hs']
      exact hC2
    · rw [hs']
      exact hR2
    · rw [hs']
    · rw [hs', hfl]
      exact hshape
    · rw [hs', hfl]
      exact hcells

/-- Effect of the base-class `resize_luts_if_needed` when the requested shape
covers the current one: counters move to the request, both matrices keep old
cells, newly valid cells read the sentinel. -/
theorem resize_luts_if_needed_spec (s : MergedVCFLUTBase) (hwf : s.wf) (n m : Nat)
    (hn : s.m_num_input_vcfs ≤ n) (hm : s.m_num_merged_fields ≤ m) :
    (s.resize_luts_if_needed n m).wf ∧
    (s.resize_luts_if_needed n m).inputs_2_merged_LUT_is_input_ordered =
      s.inputs_2_merged_LUT_is_input_ordered ∧
    (s.resize_luts_if_needed n m).merged_2_inputs_LUT_is_input_ordered =
      s.merged_2_inputs_LUT_is_input_ordered ∧
    (s.resize_luts_if_needed n m).m_num_input_vcfs = n ∧
    (s.resize_luts_if_needed n m).m_num_merged_fields = m ∧
    (∀ i : Nat, ∀ l : Int, s.input_in_bounds i → s.merged_in_bounds l →
      (s.resize_luts_if_needed n m).get_merged_idx_for_input i l =
        s.get_merged_idx_for_input i l) ∧
    (∀ i : Nat, ∀ q : Int, s.input_in_bounds i → s.merged_in_bounds q →
      (s.resize_luts_if_needed n m).get_input_idx_for_merged i q =
        s.get_input_idx_for_merged i q) ∧
    (∀ i : Nat, ∀ l : Int,
      (s.resize_luts_if_needed n m).input_in_bounds i →
      (s.resize_luts_if_needed n m).merged_in_bounds l →
      ¬(s.input_in_bounds i ∧ s.merged_in_bounds l) →
      (s.resize_luts_if_needed n m).get_merged_idx_for_input i l =
        some missing_int32) ∧
    (∀ i : Nat, ∀ q : Int,
      (s.resize_luts_if_needed n m).input_in_bounds i →
      (s.resize_luts_if_needed n m).merged_in_bounds q →
      ¬(s.input_in_bounds i ∧ s.merged_in_bounds q) →
      (s.resize_luts_if_needed n m).get_input_idx_for_merged i q =
        some missing_int32) := by
  obtain ⟨h1f1, h1f2, h1nI, h1nM, h1i2m, h1shape, h1cells⟩ :=
    resize_m2i_wrapper_spec s n m s.m2i_rows s.m2i_cols hwf.2
      (by unfold m2i_rows
          cases hf : s.merged_2_inputs_LUT_is_input_ordered <;> simp [hf] <;> omega)
      (by unfold m2i_cols
          cases hf : s.merged_2_inputs_LUT_is_input_ordered <;> simp [hf] <;> omega)
      (Or.inl rfl) (Or.inl rfl)
  obtain ⟨h2f1, h2f2, h2nI, h2nM, h2m2i, h2shape, h2cells⟩ :=
    resize_i2m_wrapper_spec (s.resize_merged_2_inputs_lut_if_needed n m) n m
      s.i2m_rows s.i2m_cols (by rw [h1i2m]; exact hwf.1)
      (by rw [h1f1]
          unfold i2m_rows
          cases hf : s.inputs_2_merged_LUT_is_input_ordered <;> simp [hf] <;> omega)
      (by rw [h1f1]
          unfold i2m_cols
          cases hf : s.inputs_2_merged_LUT_is_input_ordered <;> simp [hf] <;> omega)
      (Or.inr (by rw [h1f1, h1nI, h1nM]))
      (Or.inr (by rw [h1f1, h1nI, h1nM]))
  have hres : s.resize_luts_if_needed n m =
      (s.resize_merged_2_inputs_lut_if_needed n m).resize_inputs_2_merged_lut_if_needed n m := rfl
  rw [h1f1] at h2f1 h2shape h2cells
  rw [h1f2] at h2f2
  rw [h1i2m] at h2cells
  rw [← hres] at h2f1 h2f2 h2nI h2nM h2m2i h2shape h2cells
  have hgmA : ∀ (a b : Int),
      (lut_in_bounds s.m_inputs_2_merged_lut a b →
        get_lut_value (s.resize_luts_if_needed n m).m_inputs_2_merged_lut a b =
          get_lut_value s.m_inputs_2_merged_lut a b) ∧
      (lut_in_bounds (s.resize_luts_if_needed n m).m_inputs_2_merged_lut a b →
        ¬ lut_in_bounds s.m_inputs_2_merged_lut a b →
        get_lut_value (s.resize_luts_if_needed n m).m_inputs_2_merged_lut a b =
          some missing_int32) := by
    intro a b
    refine get_lut_value_of_grow s.m_inputs_2_merged_lut
      (s.resize_luts_if_needed n m).m_inputs_2_merged_lut
      s.i2m_rows s.i2m_cols
      (if s.inputs_2_merged_LUT_is_input_ordered then n else m)
      (if s.inputs_2_merged_LUT_is_input_ordered then m else n)
      hwf.1 h2shape ?_ ?_ h2cells a b
    · unfold i2m_rows
      cases hf : s.inputs_2_merged_LUT_is_input_ordered <;> simp [hf] <;> omega
    · unfold i2m_cols
      cases hf : s.inputs_2_merged_LUT_is_input_ordered <;> simp [hf] <;> omega
  have hgiA : ∀ (a b : Int),
      (lut_in_bounds s.m_merged_2_inputs_lut a b →
        get_lut_value (s.resize_luts_if_needed n m).m_merged_2_inputs_lut a b =
          get_lut_value s.m_merged_2_inputs_lut a b) ∧
      (lut_in_bounds (s.resize_luts_if_needed n m).m_merged_2_inputs_lut a b →
        ¬ lut_in_bounds s.m_merged_2_inputs_lut a b →
        get_lut_value (s.resize_luts_if_needed n m).m_merged_2_inputs_lut a b =
          some missing_int32) := by
    intro a b
    rw [h2m2i]
    refine get_lut_value_of_grow s.m_merged_2_inputs_lut
      (s.resize_merged_2_inputs_lut_if_needed n m).m_merged_2_inputs_lut
      s.m2i_rows s.m2i_cols
      (if s.merged_2_inputs_LUT_is_input_ordered then n else m)
      (if s.merged_2_inputs_LUT_is_input_ordered then m else n)
      hwf.2 h1shape ?_ ?_ h1cells a b
    · unfold m2i_rows
      cases hf : s.merged_2_inputs_LUT_is_input_ordered <;> simp [hf] <;> omega
    · unfold m2i_cols
      cases hf : s.merged_2_inputs_LUT_is_input_ordered <;> simp [hf] <;> omega
  have hwf' : (s.resize_luts_if_needed n m).wf := by
    refine ⟨?_, ?_⟩
    · have hrows : (s.resize_luts_if_needed n m).i2m_rows =
          (if s.inputs_2_merged_LUT_is_input_ordered then n else m) := by
        unfold i2m_rows
        rw [h2f1, h2nI, h2nM]
      have hcols : (s.resize_luts_if_needed n m).i2m_cols =
          (if s.inputs_2_merged_LUT_is_input_ordered then m else n) := by
        unfold i2m_cols
        rw [h2f1, h2nI, h2nM]
      rw [hrows, hcols]
      exact h2shape
    · have hrows : (s.resize_luts_if_needed n m).m2i_rows =
          (if s.merged_2_inputs_LUT_is_input_ordered then n else m) := by
        unfold m2i_rows
        rw [h2f2, h2nI, h2nM]
      have hcols : (s.resize_luts_if_needed n m).m2i_cols =
          (if s.merged_2_inputs_LUT_is_input_ordered then m else n) := by
        unfold m2i_cols
        rw [h2f2, h2nI, h2nM]
      rw [hrows, hcols, h2m2i]
      exact h1shape
  refine ⟨hwf', h2f1, h2f2, h2nI, h2nM, ?_, ?_, ?_, ?_⟩
  · intro i l hbi hbl
    unfold get_merged_idx_for_input
    rw [h2f1]
    by_cases hf : s.inputs_2_merged_LUT_is_input_ordered = true
    · rw [if_pos hf, if_pos hf]
      refine (hgmA _ _).1 ?_
      rw [lut_in_bounds_iff_of_shape _ _ _ hwf.1]
      unfold i2m_rows i2m_cols
      rw [if_pos hf, if_pos hf]
      exact ⟨hbi.1, hbi.2, hbl.1, hbl.2⟩
    · rw [if_neg hf, if_neg hf]
      refine (hgmA _ _).1 ?_
      rw [lut_in_bounds_iff_of_shape _ _ _ hwf.1]
      unfold i2m_rows i2m_cols
      rw [if_neg hf, if_neg hf]
      exact ⟨hbl.1, hbl.2, hbi.1, hbi.2⟩
  · intro i q hbi hbq
    unfold get_input_idx_for_merged
    rw [h2f2]
    by_cases hf : s.merged_2_inputs_LUT_is_input_ordered = true
    · rw [if_pos hf, if_pos hf]
      refine (hgiA _ _).1 ?_
      rw [lut_in_bounds_iff_of_shape _ _ _ hwf.2]
      unfold m2i_rows m2i_cols
      rw [if_pos hf, if_pos hf]
      exact ⟨hbi.1, hbi.2, hbq.1, hbq.2⟩
    · rw [if_neg hf, if_neg hf]
      refine (hgiA _ _).1 ?_
      rw [lut_in_bounds_iff_of_shape _ _ _ hwf.2]
      unfold m2i_rows m2i_cols
      rw [if_neg hf, if_neg hf]
      exact ⟨hbq.1, hbq.2, hbi.1, hbi.2⟩
  · intro i l hbi hbl hnot
    unfold input_in_bounds at hbi
    unfold merged_in_bounds at hbl
    rw [h2nI] at hbi
    rw [h2nM] at hbl
    have hnotB : ¬ lut_in_bounds s.m_inputs_2_merged_lut
        (if s.inputs_2_merged_LUT_is_input_ordered then toInt32 i else l)
        (if s.inputs_2_merged_LUT_is_input_ordered then l else toInt32 i) := by
      intro hb
      rw [lut_in_bounds_iff_of_shape _ _ _ hwf.1] at hb
      apply hnot
      unfold input_in_bounds merged_in_bounds
      unfold i2m_rows i2m_cols at hb
      by_cases hf : s.inputs_2_merged_LUT_is_input_ordered = true
      · rw [if_pos hf, if_pos hf] at hb
        simp only [if_pos hf] at hb
        exact ⟨⟨hb.1, hb.2.1⟩, hb.2.2.1, hb.2.2.2⟩
      · rw [if_neg hf, if_neg hf] at hb
        simp only [if_neg hf] at hb
        exact ⟨⟨hb.2.2.1, hb.2.2.2⟩, hb.1, hb.2.1⟩
    have hinB : lut_in_bounds (s.resize_luts_if_needed n m).m_inputs_2_merged_lut
        (if s.inputs_2_merged_LUT_is_input_ordered then toInt32 i else l)
        (if s.inputs_2_merged_LUT_is_input_ordered then l else toInt32 i) := by
      rw [lut_in_bounds_iff_of_shape _ _ _ h2shape]
      by_cases hf : s.inputs_2_merged_LUT_is_input_ordered = true
      · simp only [if_pos hf]
        exact ⟨hbi.1, hbi.2, hbl.1, hbl.2⟩
      · simp only [if_neg hf]
        exact ⟨hbl.1, hbl.2, hbi.1, hbi.2⟩
    unfold get_merged_idx_for_input
    rw [h2f1]
    by_cases hf : s.inputs_2_merged_LUT_is_input_ordered = true
    · rw [if_pos hf]
      simp only [if_pos hf] at hinB hnotB
      exact (hgmA _ _).2 hinB hnotB
    · rw [if_neg hf]
      simp only [if_neg hf] at hinB hnotB
      exact (hgmA _ _).2 hinB hnotB
  · intro i q hbi hbq hnot
    unfold input_in_bounds at hbi
    unfold merged_in_bounds at hbq
    rw [h2nI] at hbi
    rw [h2nM] at hbq
    have hnotB : ¬ lut_in_bounds s.m_merged_2_inputs_lut
        (if s.merged_2_inputs_LUT_is_input_ordered then toInt32 i else q)
        (if s.merged_2_inputs_LUT_is_input_ordered then q else toInt32 i) := by
      intro hb
      rw [lut_in_bounds_iff_of_shape _ _ _ hwf.2] at hb
      apply hnot
      unfold input_in_bounds merged_in_bounds
      unfold m2i_rows m2i_cols at hb
      by_cases hf : s.merged_2_inputs_LUT_is_input_ordered = true
      · rw [if_pos hf, if_pos hf] at hb
        simp only [if_pos hf] at hb
        exact ⟨⟨hb.1, hb.2.1⟩, hb.2.2.1, hb.2.2.2⟩
      · rw [if_neg hf, if_neg hf] at hb
        simp only [if_neg hf] at hb
        exact ⟨⟨hb.2.2.1, hb.2.2.2⟩, hb.1, hb.2.1⟩
    have hinB : lut_in_bounds (s.resize_luts_if_needed n m).m_merged_2_inputs_lut
        (if s.merged_2_inputs_LUT_is_input_ordered then toInt32 i else q)
        (if s.merged_2_inputs_LUT_is_input_ordered then q else toInt32 i) := by
      rw [h2m2i, lut_in_bounds_iff_of_shape _ _ _ h1shape]
      by_cases hf : s.merged_2_inputs_LUT_is_input_ordered = true
      · simp only [if_pos hf]
        exact ⟨hbi.1, hbi.2, hbq.1, hbq.2⟩
      · simp only [if_neg hf]
        exact ⟨hbq.1, hbq.2, hbi.1, hbi.2⟩
    unfold get_input_idx_for_merged
    rw [h2f2]
    by_cases hf : s.merged_2_inputs_LUT_is_input_ordered = true
    · rw [if_pos hf]
      simp only [if_pos hf] at hinB hnotB
      exact (hgiA _ _).2 hinB hnotB
    · rw [if_neg hf]
      simp only [if_neg hf] at hinB hnotB
      exact (hgiA _ _).2 hinB hnotB

/-- Everything the two-argument constructor guarantees: a well-formed table of
the requested logical shape whose every in-bounds query reads the sentinel. -/
theorem construct_spec (f1 f2 : Bool) (nI nM : Nat) :
    (construct f1 f2 nI nM).wf ∧
    (construct f1 f2 nI nM).inputs_2_merged_LUT_is_input_ordered = f1 ∧
    (construct f1 f2 nI nM).merged_2_inputs_LUT_is_input_ordered = f2 ∧
    (construct f1 f2 nI nM).m_num_input_vcfs = nI ∧
    (construct f1 f2 nI nM).m_num_merged_fields = nM ∧
    (∀ i : Nat, ∀ l : Int, (construct f1 f2 nI nM).get_merged_idx_for_input i l =
      if 0 ≤ toInt32 i ∧ toInt32 i < (nI : Int) ∧ 0 ≤ l ∧ l < (nM : Int) then
        some missing_int32 else none) ∧
    (∀ i : Nat, ∀ q : Int, (construct f1 f2 nI nM).get_input_idx_for_merged i q =
      if 0 ≤ toInt32 i ∧ toInt32 i < (nI : Int) ∧ 0 ≤ q ∧ q < (nM : Int) then
        some missing_int32 else none) := by
  have hempty : lut_shape ([] : LutMatrix) 0 0 :=
    ⟨rfl, fun j hj => absurd hj (Nat.not_lt_zero j)⟩
  obtain ⟨a1f1, a1f2, a1nI, a1nM, a1m2i, a1shape, a1cells⟩ :=
    resize_i2m_wrapper_spec (⟨f1, f2, nI, nM, [], []⟩ : MergedVCFLUTBase) nI nM 0 0
      hempty (Nat.zero_le _) (Nat.zero_le _) (Or.inr rfl) (Or.inr rfl)
  obtain ⟨a2f1, a2f2, a2nI, a2nM, a2i2m, a2shape, a2cells⟩ :=
    resize_m2i_wrapper_spec
      ((⟨f1, f2, nI, nM, [], []⟩ : MergedVCFLUTBase).resize_inputs_2_merged_lut_if_needed nI nM)
      nI nM 0 0 (by rw [a1m2i]; exact hempty)
      (Nat.zero_le _) (Nat.zero_le _)
      (Or.inr (by rw [a1nI, a1nM]))
      (Or.inr (by rw [a1nI, a1nM]))
  have hcon : construct f1 f2 nI nM =
      ((⟨f1, f2, nI, nM, [], []⟩ : MergedVCFLUTBase).resize_inputs_2_merged_lut_if_needed
        nI nM).resize_merged_2_inputs_lut_if_needed nI nM := rfl
  rw [a1f2] at a2shape a2cells a2f2
  rw [a1f1] at a2f1
  have hc_f1 : (construct f1 f2 nI nM).inputs_2_merged_LUT_is_input_ordered = f1 := by
    rw [hcon]
    exact a2f1
  have hc_f2 : (construct f1 f2 nI nM).merged_2_inputs_LUT_is_input_ordered = f2 := by
    rw [hcon]
    exact a2f2
  have hc_nI : (construct f1 f2 nI nM).m_num_input_vcfs = nI := by
    rw [hcon]
    exact a2nI
  have hc_nM : (construct f1 f2 nI nM).m_num_merged_fields = nM := by
    rw [hcon]
    exact a2nM
  have hc_i2m_shape : lut_shape (construct f1 f2 nI nM).m_inputs_2_merged_lut
      (if f1 then nI else nM) (if f1 then nM else nI) := by
    rw [hcon, a2i2m]
    exact a1shape
  have hc_m2i_shape : lut_shape (construct f1 f2 nI nM).m_merged_2_inputs_lut
      (if f2 then nI else nM) (if f2 then nM else nI) := by
    rw [hcon]
    exact a2shape
  have hc_i2m_cells : ∀ i j : Nat, i < (if f1 then nI else nM) →
      j < (if f1 then nM else nI) →
      ((construct f1 f2 nI nM).m_inputs_2_merged_lut.getD i []).getD j 0 =
        missing_int32 := by
    intro i j hi hj
    rw [hcon, a2i2m, a1cells i j hi hj, if_neg (by omega)]
  have hc_m2i_cells : ∀ i j : Nat, i < (if f2 then nI else nM) →
      j < (if f2 then nM else nI) →
      ((construct f1 f2 nI nM).m_merged_2_inputs_lut.getD i []).getD j 0 =
        missing_int32 := by
    intro i j hi hj
    rw [hcon, a2cells i j hi hj, if_neg (by omega)]
  refine ⟨⟨?_, ?_⟩, hc_f1, hc_f2, hc_nI, hc_nM, ?_, ?_⟩
  · have hrows : (construct f1 f2 nI nM).i2m_rows = (if f1 then nI else nM) := by
      unfold i2m_rows
      rw [hc_f1, hc_nI, hc_nM]
    have hcols : (construct f1 f2 nI nM).i2m_cols = (if f1 then nM else nI) := by
      unfold i2m_cols
      rw [hc_f1, hc_nI, hc_nM]
    rw [hrows, hcols]
    exact hc_i2m_shape
  · have hrows : (construct f1 f2 nI nM).m2i_rows = (if f2 then nI else nM) := by
      unfold m2i_rows
      rw [hc_f2, hc_nI, hc_nM]
    have hcols : (construct f1 f2 nI nM).m2i_cols = (if f2 then nM else nI) := by
      unfold m2i_cols
      rw [hc_f2, hc_nI, hc_nM]
    rw [hrows, hcols]
    exact hc_m2i_shape
  · intro i l
    unfold get_merged_idx_for_input
    rw [hc_f1]
    cases f1
    case true =>
      rw [if_pos rfl,
        get_lut_value_all_missing _ nI nM hc_i2m_shape hc_i2m_cells (toInt32 i) l]
    case false =>
      rw [if_neg Bool.false_ne_true,
        get_lut_value_all_missing _ nM nI hc_i2m_shape hc_i2m_cells l (toInt32 i)]
      exact if_congr (by tauto) rfl rfl
  · intro i q
    unfold get_input_idx_for_merged
    rw [hc_f2]
    cases f2
    case true =>
      rw [if_pos rfl,
        get_lut_value_all_missing _ nI nM hc_m2i_shape hc_m2i_cells (toInt32 i) q]
    case false =>
      rw [if_neg Bool.false_ne_true,
        get_lut_value_all_missing _ nM nI hc_m2i_shape hc_m2i_cells q (toInt32 i)]
      exact if_congr (by tauto) rfl rfl

end MergedVCFLUTBase

namespace MergedVCFAllelesIdxLUT

/-- Consistency of the allele table: the base is well-formed and its
merged-fields counter equals the max-alleles watermark. -/
def inv (t : MergedVCFAllelesIdxLUT) : Prop :=
  t.toBase.wf ∧ t.toBase.m_num_merged_fields = t.m_max_num_alleles

instance (t : MergedVCFAllelesIdxLUT) : Decidable t.inv := by
  unfold inv; infer_instance

theorem alleles_construct_inv (f1 f2 : Bool) (nI : Nat) :
    (construct f1 f2 nI).inv ∧
    (construct f1 f2 nI).m_max_num_alleles = m_DEFAULT_INIT_NUM_ALLELES ∧
    (construct f1 f2 nI).toBase.m_num_input_vcfs = nI ∧
    (construct f1 f2 nI).toBase.m_num_merged_fields = m_DEFAULT_INIT_NUM_ALLELES := by
  obtain ⟨hwf, -, -, hnI, hnM, -, -⟩ :=
    MergedVCFLUTBase.construct_spec f1 f2 nI m_DEFAULT_INIT_NUM_ALLELES
  exact ⟨⟨hwf, hnM⟩, rfl, hnI, hnM⟩

theorem alleles_resize_noop (t : MergedVCFAllelesIdxLUT) (n : Nat)
    (hn : n ≤ t.m_max_num_alleles) : t.resize_luts_if_needed n = t := by
  unfold resize_luts_if_needed
  rw [if_neg (by omega)]

theorem alleles_resize_grow_spec (t : MergedVCFAllelesIdxLUT) (hinv : t.inv)
    (n : Nat) (hn : t.m_max_num_alleles < n) :
    (t.resize_luts_if_needed n).inv ∧
    (t.resize_luts_if_needed n).m_max_num_alleles = n ∧
    (t.resize_luts_if_needed n).toBase.m_num_input_vcfs = t.toBase.m_num_input_vcfs ∧
    (t.resize_luts_if_needed n).toBase.m_num_merged_fields = n := by
  have hres : t.resize_luts_if_needed n =
      ⟨t.toBase.resize_luts_if_needed t.toBase.m_num_input_vcfs n, n⟩ := by
    unfold resize_luts_if_needed
    rw [if_pos (by omega)]
  obtain ⟨hwf', -, -, hnI', hnM', -, -, -, -⟩ :=
    MergedVCFLUTBase.resize_luts_if_needed_spec t.toBase hinv.1
      t.toBase.m_num_input_vcfs n (le_refl _)
      (by have h2 := hinv.2; omega)
  rw [hres]
  exact ⟨⟨hwf', hnM'⟩, rfl, hnI', hnM'⟩

end MergedVCFAllelesIdxLUT

/-! ### Arithmetic facts about the unsigned-to-int conversion -/

theorem toInt32_of_lt (n : Nat) (h : n < 2147483648) : toInt32 n = (n : Int) := by
  unfold toInt32
  rw [Nat.mod_eq_of_lt (by omega), if_pos h]

theorem toInt32_neg_of (n : Nat) (h1 : 2147483648 ≤ n) (h2 : n < 4294967296) :
    toInt32 n < 0 := by
  unfold toInt32
  rw [Nat.mod_eq_of_lt h2, if_neg (by omega)]
  have hc : (n : Int) < 4294967296 := by exact_mod_cast h2
  omega

theorem toInt32_inj (a b : Nat) (ha : a < 4294967296) (hb : b < 4294967296)
    (h : toInt32 a = toInt32 b) : a = b := by
  unfold toInt32 at h
  rw [Nat.mod_eq_of_lt ha, Nat.mod_eq_of_lt hb] at h
  by_cases h1 : a < 2147483648 <;> by_cases h2 : b < 2147483648
  · rw [if_pos h1, if_pos h2] at h
    exact_mod_cast h
  · rw [if_pos h1, if_neg h2] at h
    have hc1 : (0 : Int) ≤ (a : Int) := Int.ofNat_nonneg a
    have hc2 : (b : Int) < 4294967296 := by exact_mod_cast hb
    have hc3 : (2147483648 : Int) ≤ (b : Int) := by exact_mod_cast (by omega : 2147483648 ≤ b)
    omega
  · rw [if_neg h1, if_pos h2] at h
    have hc1 : (0 : Int) ≤ (b : Int) := Int.ofNat_nonneg b
    have hc2 : (a : Int) < 4294967296 := by exact_mod_cast ha
    have hc3 : (2147483648 : Int) ≤ (a : Int) := by exact_mod_cast (by omega : 2147483648 ≤ a)
    omega
  · rw [if_neg h1, if_neg h2] at h
    have : (a : Int) = (b : Int) := by omega
    exact_mod_cast this

/-! ### Rejection of negative (sentinel) coordinates -/

theorem set_lut_value_none_of_neg (lut : LutMatrix) (r c v : Int)
    (h : r < 0 ∨ c < 0) : set_lut_value lut r c v = none := by
  rw [set_lut_value_eq_if, if_neg]
  rintro ⟨h1, -, h3, -⟩
  omega

namespace MergedVCFLUTBase

theorem set_merged_none_of_neg (s : MergedVCFLUTBase) (i : Nat) (l m : Int)
    (h : toInt32 i < 0 ∨ l < 0) :
    s.set_merged_idx_for_input i l m = none := by
  unfold set_merged_idx_for_input
  split
  · rw [set_lut_value_none_of_neg _ _ _ _ h]
    rfl
  · rw [set_lut_value_none_of_neg _ _ _ _ (Or.symm h)]
    rfl

theorem set_input_none_of_neg (s : MergedVCFLUTBase) (i : Nat) (l m : Int)
    (h : toInt32 i < 0 ∨ m < 0) :
    s.set_input_idx_for_merged i l m = none := by
  unfold set_input_idx_for_merged
  split
  · rw [set_lut_value_none_of_neg _ _ _ _ h]
    rfl
  · rw [set_lut_value_none_of_neg _ _ _ _ (Or.symm h)]
    rfl

theorem input_in_bounds_iff_unsigned (s : MergedVCFLUTBase)
    (hnI : s.m_num_input_vcfs < 2147483648) (i : Nat) (hi : i < 4294967296) :
    s.input_in_bounds i ↔ i < s.m_num_input_vcfs := by
  unfold input_in_bounds
  by_cases hsmall : i < 2147483648
  · rw [toInt32_of_lt i hsmall]
    constructor
    · rintro ⟨-, h2⟩
      exact_mod_cast h2
    · intro h
      exact ⟨Int.ofNat_nonneg i, by exact_mod_cast h⟩
  · have hneg := toInt32_neg_of i (by omega) hi
    constructor
    · rintro ⟨h1, -⟩
      omega
    · intro h
      omega

/-! ### Physical extents never shrink -/

theorem resize_i2m_wrapper_never_shrinks (s : MergedVCFLUTBase) (n m : Nat) :
    s.m_inputs_2_merged_lut.length ≤
      (s.resize_inputs_2_merged_lut_if_needed n m).m_inputs_2_merged_lut.length ∧
    (∀ j : Nat, (s.m_inputs_2_merged_lut.getD j []).length ≤
      ((s.resize_inputs_2_merged_lut_if_needed n m).m_inputs_2_merged_lut.getD j []).length) ∧
    (s.resize_inputs_2_merged_lut_if_needed n m).m_merged_2_inputs_lut =
      s.m_merged_2_inputs_lut := by
  unfold resize_inputs_2_merged_lut_if_needed
  split
  · exact ⟨(resize_and_reset_lut_never_shrinks s.m_inputs_2_merged_lut n m
      s.m_num_input_vcfs s.m_num_merged_fields).1,
      (resize_and_reset_lut_never_shrinks s.m_inputs_2_merged_lut n m
        s.m_num_input_vcfs s.m_num_merged_fields).2, rfl⟩
  · exact ⟨(resize_and_reset_lut_never_shrinks s.m_inputs_2_merged_lut m n
      s.m_num_merged_fields s.m_num_input_vcfs).1,
      (resize_and_reset_lut_never_shrinks s.m_inputs_2_merged_lut m n
        s.m_num_merged_fields s.m_num_input_vcfs).2, rfl⟩

theorem resize_m2i_wrapper_never_shrinks (s : MergedVCFLUTBase) (n m : Nat) :
    s.m_merged_2_inputs_lut.length ≤
      (s.resize_merged_2_inputs_lut_if_needed n m).m_merged_2_inputs_lut.length ∧
    (∀ j : Nat, (s.m_merged_2_inputs_lut.getD j []).length ≤
      ((s.resize_merged_2_inputs_lut_if_needed n m).m_merged_2_inputs_lut.getD j []).length) ∧
    (s.resize_merged_2_inputs_lut_if_needed n m).m_inputs_2_merged_lut =
      s.m_inputs_2_merged_lut := by
  unfold resize_merged_2_inputs_lut_if_needed
  split
  · exact ⟨(resize_and_reset_lut_never_shrinks s.m_merged_2_inputs_lut n m
      s.m_num_input_vcfs s.m_num_merged_fields).1,
      (resize_and_reset_lut_never_shrinks s.m_merged_2_inputs_lut n m
        s.m_num_input_vcfs s.m_num_merged_fields).2, rfl⟩
  · exact ⟨(resize_and_reset_lut_never_shrinks s.m_merged_2_inputs_lut m n
      s.m_num_merged_fields s.m_num_input_vcfs).1,
      (resize_and_reset_lut_never_shrinks s.m_merged_2_inputs_lut m n
        s.m_num_merged_fields s.m_num_input_vcfs).2, rfl⟩

theorem resize_luts_if_needed_never_shrinks (s : MergedVCFLUTBase) (n m : Nat) :
    s.m_inputs_2_merged_lut.length ≤
      (s.resize_luts_if_needed n m).m_inputs_2_merged_lut.length ∧
    s.m_merged_2_inputs_lut.length ≤
      (s.resize_luts_if_needed n m).m_merged_2_inputs_lut.length ∧
    (∀ j : Nat, (s.m_inputs_2_merged_lut.getD j []).length ≤
      ((s.resize_luts_if_needed n m).m_inputs_2_merged_lut.getD j []).length) ∧
    (∀ j : Nat, (s.m_merged_2_inputs_lut.getD j []).length ≤
      ((s.resize_luts_if_needed n m).m_merged_2_inputs_lut.getD j []).length) := by
  obtain ⟨h1len, h1row, h1other⟩ := resize_m2i_wrapper_never_shrinks s n m
  obtain ⟨h2len, h2row, h2other⟩ :=
    resize_i2m_wrapper_never_shrinks (s.resize_merged_2_inputs_lut_if_needed n m) n m
  have hres : s.resize_luts_if_needed n m =
      (s.resize_merged_2_inputs_lut_if_needed n m).resize_inputs_2_merged_lut_if_needed
        n m := rfl
  rw [← hres] at h2len h2row h2other
  rw [h1other] at h2len h2row
  refine ⟨h2len, ?_, fun j => h2row j, fun j => ?_⟩
  · rw [h2other]
    exact h1len
  · rw [h2other]
    exact h1row j

end MergedVCFLUTBase

/-- Rectangularity of one matrix: every row has the length of row 0. -/
def rectangular (lut : LutMatrix) : Prop :=
  ∀ row ∈ lut, row.length = (lut.getD 0 []).length

instance (lut : LutMatrix) : Decidable (rectangular lut) := by
  unfold rectangular; infer_instance

theorem lut_shape_rectangular (lut : LutMatrix) (rows cols : Nat)
    (h : lut_shape lut rows cols) : rectangular lut := by
  intro row hrow
  obtain ⟨hlen, hcell⟩ := h
  obtain ⟨j, hj, hval⟩ := List.mem_iff_getElem.mp hrow
  have h0 : 0 < lut.length := by omega
  have hj' := hcell j (by omega)
  have h0' := hcell 0 (by omega)
  rw [List.getD_eq_getElem?_getD, List.getElem?_eq_getElem hj, Option.getD_some,
    hval] at hj'
  rw [h0', hj']

/-- States reachable from the two-argument constructor through the public
mutators and through `resize_luts_if_needed` calls that never request fewer
rows or columns than currently allocated. -/
inductive ReachableMono : MergedVCFLUTBase → Prop where
  | construct (f1 f2 : Bool) (nI nM : Nat) :
      ReachableMono (MergedVCFLUTBase.construct f1 f2 nI nM)
  | add (s s' : MergedVCFLUTBase) (i : Nat) (l m : Int) : ReachableMono s →
      s.add_input_merged_idx_pair i l m = some s' → ReachableMono s'
  | resetMerged (s s' : MergedVCFLUTBase) (i : Nat) (l : Int) : ReachableMono s →
      s.reset_merged_idx_for_input i l = some s' → ReachableMono s'
  | resetInput (s s' : MergedVCFLUTBase) (i : Nat) (q : Int) : ReachableMono s →
      s.reset_input_idx_for_merged i q = some s' → ReachableMono s'
  | resetAll (s : MergedVCFLUTBase) : ReachableMono s → ReachableMono s.reset_luts
  | resize (s : MergedVCFLUTBase) (n m : Nat) : ReachableMono s →
      s.m_num_input_vcfs ≤ n → s.m_num_merged_fields ≤ m →
      ReachableMono (s.resize_luts_if_needed n m)

theorem reachableMono_wf (s : MergedVCFLUTBase) (h : ReachableMono s) : s.wf := by
  induction h
  case construct f1 f2 nI nM =>
    exact (MergedVCFLUTBase.construct_spec f1 f2 nI nM).1
  case add s s' i l m hr hadd ih =>
    exact MergedVCFLUTBase.add_wf s i l m s' hadd ih
  case resetMerged s s' i l hr hset ih =>
    exact MergedVCFLUTBase.set_merged_wf s i l missing_int32 s' hset ih
  case resetInput s s' i q hr hset ih =>
    exact MergedVCFLUTBase.set_input_wf s i missing_int32 q s' hset ih
  case resetAll s hr ih =>
    exact MergedVCFLUTBase.reset_luts_wf s ih
  case resize s n m hr hn hm ih =>
    exact (MergedVCFLUTBase.resize_luts_if_needed_spec s ih n m hn hm).1

/-! ### Operation sequences, for layout-transparency statements -/

/-- One public mutating call on the table. -/
inductive LutOp where
  | add (inputGVCFIdx : Nat) (inputIdx mergedIdx : Int)
  | resetMergedForInput (inputGVCFIdx : Nat) (inputIdx : Int)
  | resetInputForMerged (inputGVCFIdx : Nat) (mergedIdx : Int)
  | resetLuts
  deriving Repr, DecidableEq

/-- Run one call; `none` models a failed assertion. -/
def run_op (s : MergedVCFLUTBase) : LutOp → Option MergedVCFLUTBase
  | .add i l m => s.add_input_merged_idx_pair i l m
  | .resetMergedForInput i l => s.reset_merged_idx_for_input i l
  | .resetInputForMerged i m => s.reset_input_idx_for_merged i m
  | .resetLuts => some s.reset_luts

/-- Run a sequence of calls, aborting at the first failed assertion. -/
def run_ops (s : MergedVCFLUTBase) : List LutOp → Option MergedVCFLUTBase
  | [] => some s
  | op :: rest => (run_op s op).bind (fun s' => run_ops s' rest)

/-- The simulation relation for layout transparency: both tables well-formed,
same logical extents, and identical answers to every query. -/
def equivInv (s₁ s₂ : MergedVCFLUTBase) : Prop :=
  s₁.wf ∧ s₂.wf ∧ s₁.m_num_input_vcfs = s₂.m_num_input_vcfs ∧
  s₁.m_num_merged_fields = s₂.m_num_merged_fields ∧
  (∀ i : Nat, ∀ l : Int, s₁.get_merged_idx_for_input i l =
    s₂.get_merged_idx_for_input i l) ∧
  (∀ i : Nat, ∀ q : Int, s₁.get_input_idx_for_merged i q =
    s₂.get_input_idx_for_merged i q)

/-- One mutating call preserves the simulation relation: it fails on one
table exactly when it fails on the other, and on success the results are
again related. -/
theorem run_op_equiv (s₁ s₂ : MergedVCFLUTBase) (h : equivInv s₁ s₂)
    (op : LutOp) :
    (run_op s₁ op = none ↔ run_op s₂ op = none) ∧
    (∀ t₁ t₂, run_op s₁ op = some t₁ → run_op s₂ op = some t₂ →
      equivInv t₁ t₂) := by
  obtain ⟨hw1, hw2, hnI, hnM, hgm, hgi⟩ := h
  have hbi : ∀ i : Nat, s₁.input_in_bounds i ↔ s₂.input_in_bounds i := by
    intro i
    unfold MergedVCFLUTBase.input_in_bounds
    rw [hnI]
  have hbm : ∀ q : Int, s₁.merged_in_bounds q ↔ s₂.merged_in_bounds q := by
    intro q
    unfold MergedVCFLUTBase.merged_in_bounds
    rw [hnM]
  cases op
  case add i l m =>
    constructor
    · rw [← Option.not_isSome_iff_eq_none, ← Option.not_isSome_iff_eq_none]
      exact not_congr (by
        rw [run_op, run_op, MergedVCFLUTBase.add_isSome_iff s₁ hw1,
          MergedVCFLUTBase.add_isSome_iff s₂ hw2, hbi, hbm, hbm])
    · intro t₁ t₂ h₁ h₂
      rw [run_op] at h₁ h₂
      obtain ⟨-, -, anI, anM, agm, agi⟩ :=
        MergedVCFLUTBase.add_spec s₁ i l m t₁ h₁
      obtain ⟨-, -, bnI, bnM, bgm, bgi⟩ :=
        MergedVCFLUTBase.add_spec s₂ i l m t₂ h₂
      refine ⟨MergedVCFLUTBase.add_wf s₁ i l m t₁ h₁ hw1,
        MergedVCFLUTBase.add_wf s₂ i l m t₂ h₂ hw2, ?_, ?_, ?_, ?_⟩
      · rw [anI, bnI, hnI]
      · rw [anM, bnM, hnM]
      · intro i' l'
        rw [agm i' l', bgm i' l', hgm i' l']
      · intro i' q'
        rw [agi i' q', bgi i' q', hgi i' q']
  case resetMergedForInput i l =>
    constructor
    · rw [← Option.not_isSome_iff_eq_none, ← Option.not_isSome_iff_eq_none]
      exact not_congr (by
        rw [run_op, run_op, MergedVCFLUTBase.reset_merged_idx_for_input,
          MergedVCFLUTBase.reset_merged_idx_for_input,
          MergedVCFLUTBase.set_merged_isSome_iff s₁ hw1,
          MergedVCFLUTBase.set_merged_isSome_iff s₂ hw2, hbi, hbm])
    · intro t₁ t₂ h₁ h₂
      rw [run_op, MergedVCFLUTBase.reset_merged_idx_for_input] at h₁ h₂
      obtain ⟨af1, af2, anI, anM, am2i, agm, -, -⟩ :=
        MergedVCFLUTBase.set_merged_spec s₁ i l missing_int32 t₁ h₁
      obtain ⟨bf1, bf2, bnI, bnM, bm2i, bgm, -, -⟩ :=
        MergedVCFLUTBase.set_merged_spec s₂ i l missing_int32 t₂ h₂
      refine ⟨MergedVCFLUTBase.set_merged_wf s₁ i l missing_int32 t₁ h₁ hw1,
        MergedVCFLUTBase.set_merged_wf s₂ i l missing_int32 t₂ h₂ hw2,
        ?_, ?_, ?_, ?_⟩
      · rw [anI, bnI, hnI]
      · rw [anM, bnM, hnM]
      · intro i' l'
        rw [agm i' l', bgm i' l', hgm i' l']
      · intro i' q'
        rw [MergedVCFLUTBase.get_input_congr s₁ t₁ af2 am2i i' q',
          MergedVCFLUTBase.get_input_congr s₂ t₂ bf2 bm2i i' q', hgi i' q']
  case resetInputForMerged i q =>
    constructor
    · rw [← Option.not_isSome_iff_eq_none, ← Option.not_isSome_iff_eq_none]
      exact not_congr (by
        rw [run_op, run_op, MergedVCFLUTBase.reset_input_idx_for_merged,
          MergedVCFLUTBase.reset_input_idx_for_merged,
          MergedVCFLUTBase.set_input_isSome_iff s₁ hw1,
          MergedVCFLUTBase.set_input_isSome_iff s₂ hw2, hbi, hbm])
    · intro t₁ t₂ h₁ h₂
      rw [run_op, MergedVCFLUTBase.reset_input_idx_for_merged] at h₁ h₂
      obtain ⟨af1, af2, anI, anM, ai2m, agi, -, -⟩ :=
        MergedVCFLUTBase.set_input_spec s₁ i missing_int32 q t₁ h₁
      obtain ⟨bf1, bf2, bnI, bnM, bi2m, bgi, -, -⟩ :=
        MergedVCFLUTBase.set_input_spec s₂ i missing_int32 q t₂ h₂
      refine ⟨MergedVCFLUTBase.set_input_wf s₁ i missing_int32 q t₁ h₁ hw1,
        MergedVCFLUTBase.set_input_wf s₂ i missing_int32 q t₂ h₂ hw2,
        ?_, ?_, ?_, ?_⟩
      · rw [anI, bnI, hnI]
      · rw [anM, bnM, hnM]
      · intro i' l'
        rw [MergedVCFLUTBase.get_merged_congr s₁ t₁ af1 ai2m i' l',
          MergedVCFLUTBase.get_merged_congr s₂ t₂ bf1 bi2m i' l', hgm i' l']
      · intro i' q'
        rw [agi i' q', bgi i' q', hgi i' q']
  case resetLuts =>
    constructor
    · simp [run_op]
    · intro t₁ t₂ h₁ h₂
      rw [run_op, Option.some_inj] at h₁ h₂
      subst h₁
      subst h₂
      obtain ⟨-, -, anI, anM, -, -, -, -, agm, agi⟩ :=
        MergedVCFLUTBase.reset_luts_spec s₁
      obtain ⟨-, -, bnI, bnM, -, -, -, -, bgm, bgi⟩ :=
        MergedVCFLUTBase.reset_luts_spec s₂
      refine ⟨MergedVCFLUTBase.reset_luts_wf s₁ hw1,
        MergedVCFLUTBase.reset_luts_wf s₂ hw2, ?_, ?_, ?_, ?_⟩
      · rw [anI, bnI, hnI]
      · rw [anM, bnM, hnM]
      · intro i' l'
        rw [agm i' l', bgm i' l', hgm i' l']
      · intro i' q'
        rw [agi i' q', bgi i' q', hgi i' q']

/-- A whole sequence of mutating calls preserves the simulation relation. -/
theorem run_ops_equiv (ops : List LutOp) (s₁ s₂ : MergedVCFLUTBase)
    (h : equivInv s₁ s₂) :
    (run_ops s₁ ops = none ↔ run_ops s₂ ops = none) ∧
    (∀ t₁ t₂, run_ops s₁ ops = some t₁ → run_ops s₂ ops = some t₂ →
      equivInv t₁ t₂) := by
  induction ops generalizing s₁ s₂
  case nil =>
    refine ⟨by simp [run_ops], ?_⟩
    intro t₁ t₂ h₁ h₂
    rw [run_ops, Option.some_inj] at h₁ h₂
    subst h₁
    subst h₂
    exact h
  case cons op rest ih =>
    obtain ⟨hiff, hstep⟩ := run_op_equiv s₁ s₂ h op
    constructor
    · rw [run_ops, run_ops]
      cases h1 : run_op s₁ op
      case none =>
        rw [hiff.mp h1]
      case some u₁ =>
        cases h2 : run_op s₂ op
        case none =>
          rw [hiff.mpr h2] at h1
          cases h1
        case some u₂ =>
          simpa using (ih u₁ u₂ (hstep u₁ u₂ h1 h2)).1
    · intro t₁ t₂ h₁ h₂
      rw [run_ops] at h₁ h₂
      rw [Option.bind_eq_some] at h₁ h₂
      obtain ⟨u₁, hu₁, h₁⟩ := h₁
      obtain ⟨u₂, hu₂, h₂⟩ := h₂
      exact (ih u₁ u₂ (hstep u₁ u₂ hu₁ hu₂)).2 t₁ t₂ h₁ h₂

/-! ### The claims -/

/-- C1: for every table state (any layout flags) and every in-bounds,
non-sentinel triple, immediately after `add_input_merged_idx_pair(i, l, m)`
the forward query `get_merged_idx_for_input(i, l)` returns `m` and the
reverse query `get_input_idx_for_merged(i, m)` returns `l`. -/
theorem claim_C1_add_then_get (s : MergedVCFLUTBase) (i : Nat) (l m : Int)
    (hwf : s.wf) (hi32 : i < 2147483648) (hiB : i < s.m_num_input_vcfs)
    (hl0 : 0 ≤ l) (hlB : l < (s.m_num_merged_fields : Int))
    (hm0 : 0 ≤ m) (hmB : m < (s.m_num_merged_fields : Int))
    (_hlns : l ≠ missing_int32) (_hmns : m ≠ missing_int32) :
    ∃ s', s.add_input_merged_idx_pair i l m = some s' ∧
      s'.get_merged_idx_for_input i l = some m ∧
      s'.get_input_idx_for_merged i m = some l := by
  have hbi : s.input_in_bounds i := by
    unfold MergedVCFLUTBase.input_in_bounds
    rw [toInt32_of_lt i hi32]
    exact ⟨Int.ofNat_nonneg i, by exact_mod_cast hiB⟩
  have hbl : s.merged_in_bounds l := ⟨hl0, hlB⟩
  have hbm : s.merged_in_bounds m := ⟨hm0, hmB⟩
  have hsome := (MergedVCFLUTBase.add_isSome_iff s hwf i l m).mpr ⟨hbi, hbl, hbm⟩
  rw [Option.isSome_iff_exists] at hsome
  obtain ⟨s', hs'⟩ := hsome
  obtain ⟨-, -, -, -, agm, agi⟩ := MergedVCFLUTBase.add_spec s i l m s' hs'
  refine ⟨s', hs', ?_, ?_⟩
  · rw [agm i l, if_pos ⟨rfl, rfl⟩]
  · rw [agi i m, if_pos ⟨rfl, rfl⟩]

theorem claim_C1_witness :
    ∃ s', (MergedVCFLUTBase.construct true false 2 3).add_input_merged_idx_pair
        1 2 0 = some s' ∧
      s'.get_merged_idx_for_input 1 2 = some 0 ∧
      s'.get_input_idx_for_merged 1 0 = some 2 :=
  claim_C1_add_then_get (MergedVCFLUTBase.construct true false 2 3) 1 2 0
    (by decide) (by decide) (by decide) (by decide) (by decide) (by decide)
    (by decide) (by decide) (by decide)

/-- C2: two tables with the same logical extents but arbitrary (possibly
different) layout flags, fed the identical sequence of
`add_input_merged_idx_pair` and `reset_*` calls, fail identically and answer
every `get_merged_idx_for_input` / `get_input_idx_for_merged` query
identically. -/
theorem claim_C2_layout_transparency (f1 f2 g1 g2 : Bool) (nI nM : Nat)
    (ops : List LutOp) :
    (run_ops (MergedVCFLUTBase.construct f1 f2 nI nM) ops = none ↔
      run_ops (MergedVCFLUTBase.construct g1 g2 nI nM) ops = none) ∧
    (∀ t₁ t₂, run_ops (MergedVCFLUTBase.construct f1 f2 nI nM) ops = some t₁ →
      run_ops (MergedVCFLUTBase.construct g1 g2 nI nM) ops = some t₂ →
      (∀ i : Nat, ∀ l : Int, t₁.get_merged_idx_for_input i l =
        t₂.get_merged_idx_for_input i l) ∧
      (∀ i : Nat, ∀ q : Int, t₁.get_input_idx_for_merged i q =
        t₂.get_input_idx_for_merged i q)) := by
  obtain ⟨awf, -, -, anI, anM, agm, agi⟩ := MergedVCFLUTBase.construct_spec f1 f2 nI nM
  obtain ⟨bwf, -, -, bnI, bnM, bgm, bgi⟩ := MergedVCFLUTBase.construct_spec g1 g2 nI nM
  have hinit : equivInv (MergedVCFLUTBase.construct f1 f2 nI nM)
      (MergedVCFLUTBase.construct g1 g2 nI nM) := by
    refine ⟨awf, bwf, by rw [anI, bnI], by rw [anM, bnM], ?_, ?_⟩
    · intro i l
      rw [agm i l, bgm i l]
    · intro i q
      rw [agi i q, bgi i q]
  obtain ⟨hiff, hsim⟩ := run_ops_equiv ops _ _ hinit
  refine ⟨hiff, ?_⟩
  intro t₁ t₂ h₁ h₂
  obtain ⟨-, -, -, -, hgm, hgi⟩ := hsim t₁ t₂ h₁ h₂
  exact ⟨hgm, hgi⟩

theorem claim_C2_witness :
    (run_ops (MergedVCFLUTBase.construct true true 2 3) [LutOp.add 0 1 2] = none ↔
      run_ops (MergedVCFLUTBase.construct false false 2 3) [LutOp.add 0 1 2] = none) ∧
    (⟨true, true, 2, 3,
        [[-2147483647, 2, -2147483647], [-2147483647, -2147483647, -2147483647]],
        [[-2147483647, -2147483647, 1], [-2147483647, -2147483647, -2147483647]]⟩ :
      MergedVCFLUTBase).get_merged_idx_for_input 0 1 =
    (⟨false, false, 2, 3,
        [[-2147483647, -2147483647], [2, -2147483647], [-2147483647, -2147483647]],
        [[-2147483647, -2147483647], [-2147483647, -2147483647], [1, -2147483647]]⟩ :
      MergedVCFLUTBase).get_merged_idx_for_input 0 1 :=
  ⟨(claim_C2_layout_transparency true true false false 2 3 [LutOp.add 0 1 2]).1,
   ((claim_C2_layout_transparency true true false false 2 3 [LutOp.add 0 1 2]).2
      _ _ (by decide) (by decide)).1 0 1⟩

/-- C4: `reset_luts` keeps the allocated extents of both matrices (no row is
added, removed or resized, hence no allocation), and afterwards every query
that was in bounds returns the sentinel while every out-of-bounds query still
fails: each answer is the sentinel-mapped image of the old answer. -/
theorem claim_C4_reset_luts (s : MergedVCFLUTBase) :
    (s.reset_luts).m_inputs_2_merged_lut.length = s.m_inputs_2_merged_lut.length ∧
    (s.reset_luts).m_merged_2_inputs_lut.length = s.m_merged_2_inputs_lut.length ∧
    (∀ j : Nat, ((s.reset_luts).m_inputs_2_merged_lut.getD j []).length =
      (s.m_inputs_2_merged_lut.getD j []).length) ∧
    (∀ j : Nat, ((s.reset_luts).m_merged_2_inputs_lut.getD j []).length =
      (s.m_merged_2_inputs_lut.getD j []).length) ∧
    (∀ i : Nat, ∀ l : Int, (s.reset_luts).get_merged_idx_for_input i l =
      (s.get_merged_idx_for_input i l).map (fun _x => missing_int32)) ∧
    (∀ i : Nat, ∀ q : Int, (s.reset_luts).get_input_idx_for_merged i q =
      (s.get_input_idx_for_merged i q).map (fun _x => missing_int32)) ∧
    (∀ i : Nat, ∀ l : Int, (s.get_merged_idx_for_input i l).isSome →
      (s.reset_luts).get_merged_idx_for_input i l = some missing_int32) ∧
    (∀ i : Nat, ∀ q : Int, (s.get_input_idx_for_merged i q).isSome →
      (s.reset_luts).get_input_idx_for_merged i q = some missing_int32) := by
  obtain ⟨-, -, -, -, hl1, hl2, hr1, hr2, hgm, hgi⟩ :=
    MergedVCFLUTBase.reset_luts_spec s
  refine ⟨hl1, hl2, hr1, hr2, hgm, hgi, ?_, ?_⟩
  · intro i l hsome
    rw [Option.isSome_iff_exists] at hsome
    obtain ⟨v, hv⟩ := hsome
    rw [hgm i l, hv]
    rfl
  · intro i q hsome
    rw [Option.isSome_iff_exists] at hsome
    obtain ⟨v, hv⟩ := hsome
    rw [hgi i q, hv]
    rfl

theorem claim_C4_witness :
    ((⟨true, false, 2, 3,
        [[-2147483647, -2147483647, -2147483647], [-2147483647, -2147483647, 0]],
        [[-2147483647, 2], [-2147483647, -2147483647], [-2147483647, -2147483647]]⟩ :
      MergedVCFLUTBase).reset_luts).get_merged_idx_for_input 1 2 =
      some missing_int32 :=
  (claim_C4_reset_luts _).2.2.2.2.2.2.1 1 2 (by decide)

/-- C5: `reset_merged_idx_for_input(i, l)` writes the sentinel into the
forward cell only and leaves the whole reverse matrix untouched (and
`reset_input_idx_for_merged` symmetrically touches only the reverse matrix);
concretely, after `add(0, 5, 2)` then `reset_merged(0, 5)` the forward query
`get_merged(0, 5)` returns the sentinel while `get_input(0, 2)` still
returns 5, under every choice of layout flags. -/
theorem claim_C5_asymmetric_reset :
    (∀ (s : MergedVCFLUTBase) (i : Nat) (l : Int) (s' : MergedVCFLUTBase),
      s.reset_merged_idx_for_input i l = some s' →
      s'.m_merged_2_inputs_lut = s.m_merged_2_inputs_lut ∧
      s'.get_merged_idx_for_input i l = some missing_int32 ∧
      (∀ i' : Nat, ∀ q' : Int, s'.get_input_idx_for_merged i' q' =
        s.get_input_idx_for_merged i' q') ∧
      (∀ i' : Nat, ∀ l' : Int, ¬(toInt32 i' = toInt32 i ∧ l' = l) →
        s'.get_merged_idx_for_input i' l' = s.get_merged_idx_for_input i' l')) ∧
    (∀ (s : MergedVCFLUTBase) (i : Nat) (q : Int) (s' : MergedVCFLUTBase),
      s.reset_input_idx_for_merged i q = some s' →
      s'.m_inputs_2_merged_lut = s.m_inputs_2_merged_lut ∧
      s'.get_input_idx_for_merged i q = some missing_int32 ∧
      (∀ i' : Nat, ∀ l' : Int, s'.get_merged_idx_for_input i' l' =
        s.get_merged_idx_for_input i' l') ∧
      (∀ i' : Nat, ∀ q' : Int, ¬(toInt32 i' = toInt32 i ∧ q' = q) →
        s'.get_input_idx_for_merged i' q' = s.get_input_idx_for_merged i' q')) ∧
    (∀ f1 f2 : Bool,
      (((MergedVCFLUTBase.construct f1 f2 1 6).add_input_merged_idx_pair 0 5 2).bind
          (fun s1 => s1.reset_merged_idx_for_input 0 5)).map
        (fun s2 => s2.get_merged_idx_for_input 0 5) = some (some missing_int32) ∧
      (((MergedVCFLUTBase.construct f1 f2 1 6).add_input_merged_idx_pair 0 5 2).bind
          (fun s1 => s1.reset_merged_idx_for_input 0 5)).map
        (fun s2 => s2.get_input_idx_for_merged 0 2) = some (some 5)) := by
  refine ⟨?_, ?_, by decide⟩
  · intro s i l s' h
    rw [MergedVCFLUTBase.reset_merged_idx_for_input] at h
    obtain ⟨af1, af2, anI, anM, am2i, agm, -, -⟩ :=
      MergedVCFLUTBase.set_merged_spec s i l missing_int32 s' h
    refine ⟨am2i, ?_, ?_, ?_⟩
    · rw [agm i l, if_pos ⟨rfl, rfl⟩]
    · exact MergedVCFLUTBase.get_input_congr s s' af2 am2i
    · intro i' l' hne
      rw [agm i' l', if_neg hne]
  · intro s i q s' h
    rw [MergedVCFLUTBase.reset_input_idx_for_merged] at h
    obtain ⟨af1, af2, anI, anM, ai2m, agi, -, -⟩ :=
      MergedVCFLUTBase.set_input_spec s i missing_int32 q s' h
    refine ⟨ai2m, ?_, ?_, ?_⟩
    · rw [agi i q, if_pos ⟨rfl, rfl⟩]
    · exact MergedVCFLUTBase.get_merged_congr s s' af1 ai2m
    · intro i' q' hne
      rw [agi i' q', if_neg hne]

theorem claim_C5_witness :
    (⟨true, true, 1, 3,
        [[-2147483647, -2147483647, -2147483647]],
        [[-2147483647, -2147483647, -2147483647]]⟩ :
      MergedVCFLUTBase).m_merged_2_inputs_lut =
      (MergedVCFLUTBase.construct true true 1 3).m_merged_2_inputs_lut :=
  (claim_C5_asymmetric_reset.1 (MergedVCFLUTBase.construct true true 1 3) 0 1 _
    (by decide)).1

/-- C6: calling `add_input_merged_idx_pair` with the sentinel as any of its
three arguments (for the unsigned first argument: a value whose `int`
reinterpretation is the sentinel) always trips an assertion — the call fails
and never records a sentinel mapping. -/
theorem claim_C6_sentinel_rejected (s : MergedVCFLUTBase) (i : Nat) (l m : Int)
    (h : toInt32 i = missing_int32 ∨ l = missing_int32 ∨ m = missing_int32) :
    s.add_input_merged_idx_pair i l m = none := by
  have hms : missing_int32 < 0 := by decide
  rw [MergedVCFLUTBase.add_input_merged_idx_pair]
  rcases h with hi | hl | hm
  · rw [MergedVCFLUTBase.set_merged_none_of_neg s i l m (Or.inl (by omega))]
    rfl
  · rw [MergedVCFLUTBase.set_merged_none_of_neg s i l m (Or.inr (by omega))]
    rfl
  · cases hfs : s.set_merged_idx_for_input i l m
    case none => rfl
    case some s1 =>
      rw [Option.some_bind,
        MergedVCFLUTBase.set_input_none_of_neg s1 i l m (Or.inr (by omega))]

theorem claim_C6_witness :
    (MergedVCFLUTBase.construct true true 1 1).add_input_merged_idx_pair 0 0
      missing_int32 = none :=
  claim_C6_sentinel_rejected (MergedVCFLUTBase.construct true true 1 1) 0 0
    missing_int32 (Or.inr (Or.inr rfl))

/-- Every public mutating call leaves the physical extents of both matrices
exactly as they were. -/
theorem run_op_extents (s : MergedVCFLUTBase) (op : LutOp)
    (s' : MergedVCFLUTBase) (h : run_op s op = some s') :
    s'.m_inputs_2_merged_lut.length = s.m_inputs_2_merged_lut.length ∧
    s'.m_merged_2_inputs_lut.length = s.m_merged_2_inputs_lut.length ∧
    (∀ j : Nat, (s'.m_inputs_2_merged_lut.getD j []).length =
      (s.m_inputs_2_merged_lut.getD j []).length) ∧
    (∀ j : Nat, (s'.m_merged_2_inputs_lut.getD j []).length =
      (s.m_merged_2_inputs_lut.getD j []).length) := by
  cases op
  case add i l m =>
    rw [run_op, MergedVCFLUTBase.add_input_merged_idx_pair,
      Option.bind_eq_some] at h
    obtain ⟨s1, h1, h2⟩ := h
    obtain ⟨-, -, -, -, am2i, -, alen, arow⟩ :=
      MergedVCFLUTBase.set_merged_spec s i l m s1 h1
    obtain ⟨-, -, -, -, bi2m, -, blen, brow⟩ :=
      MergedVCFLUTBase.set_input_spec s1 i l m s' h2
    refine ⟨?_, ?_, ?_, ?_⟩
    · rw [bi2m, alen]
    · rw [blen, am2i]
    · intro j
      rw [bi2m, arow j]
    · intro j
      rw [brow j, am2i]
  case resetMergedForInput i l =>
    rw [run_op, MergedVCFLUTBase.reset_merged_idx_for_input] at h
    obtain ⟨-, -, -, -, am2i, -, alen, arow⟩ :=
      MergedVCFLUTBase.set_merged_spec s i l missing_int32 s' h
    exact ⟨alen, by rw [am2i], arow, fun j => by rw [am2i]⟩
  case resetInputForMerged i q =>
    rw [run_op, MergedVCFLUTBase.reset_input_idx_for_merged] at h
    obtain ⟨-, -, -, -, ai2m, -, alen, arow⟩ :=
      MergedVCFLUTBase.set_input_spec s i missing_int32 q s' h
    exact ⟨by rw [ai2m], alen, fun j => by rw [ai2m], arow⟩
  case resetLuts =>
    rw [run_op, Option.some_inj] at h
    subst h
    obtain ⟨-, -, -, -, hl1, hl2, hr1, hr2, -, -⟩ :=
      MergedVCFLUTBase.reset_luts_spec s
    exact ⟨hl1, hl2, hr1, hr2⟩

/-- C3: a `resize_luts_if_needed` request covering the current bounds keeps
the table well-formed with the requested extents, preserves every previously
valid query's answer, makes every index below the new extents valid with the
sentinel in every newly valid cell, and no operation — any resize request or
any public mutator — ever shrinks the allocated extents. -/
theorem claim_C3_grow (s : MergedVCFLUTBase) (hwf : s.wf) (n m : Nat)
    (hn : s.m_num_input_vcfs ≤ n) (hm : s.m_num_merged_fields ≤ m) :
    (s.resize_luts_if_needed n m).wf ∧
    (s.resize_luts_if_needed n m).m_num_input_vcfs = n ∧
    (s.resize_luts_if_needed n m).m_num_merged_fields = m ∧
    (∀ i : Nat, ∀ l : Int, (s.get_merged_idx_for_input i l).isSome →
      (s.resize_luts_if_needed n m).get_merged_idx_for_input i l =
        s.get_merged_idx_for_input i l) ∧
    (∀ i : Nat, ∀ q : Int, (s.get_input_idx_for_merged i q).isSome →
      (s.resize_luts_if_needed n m).get_input_idx_for_merged i q =
        s.get_input_idx_for_merged i q) ∧
    (∀ i : Nat, ∀ l : Int,
      ((s.resize_luts_if_needed n m).get_merged_idx_for_input i l).isSome →
      ¬(s.get_merged_idx_for_input i l).isSome →
      (s.resize_luts_if_needed n m).get_merged_idx_for_input i l =
        some missing_int32) ∧
    (∀ i : Nat, ∀ q : Int,
      ((s.resize_luts_if_needed n m).get_input_idx_for_merged i q).isSome →
      ¬(s.get_input_idx_for_merged i q).isSome →
      (s.resize_luts_if_needed n m).get_input_idx_for_merged i q =
        some missing_int32) ∧
    (∀ n' m' : Nat,
      s.m_inputs_2_merged_lut.length ≤
        (s.resize_luts_if_needed n' m').m_inputs_2_merged_lut.length ∧
      s.m_merged_2_inputs_lut.length ≤
        (s.resize_luts_if_needed n' m').m_merged_2_inputs_lut.length ∧
      (∀ j : Nat, (s.m_inputs_2_merged_lut.getD j []).length ≤
        ((s.resize_luts_if_needed n' m').m_inputs_2_merged_lut.getD j []).length) ∧
      (∀ j : Nat, (s.m_merged_2_inputs_lut.getD j []).length ≤
        ((s.resize_luts_if_needed n' m').m_merged_2_inputs_lut.getD j []).length)) ∧
    (∀ (op : LutOp) (s' : MergedVCFLUTBase), run_op s op = some s' →
      s.m_inputs_2_merged_lut.length ≤ s'.m_inputs_2_merged_lut.length ∧
      s.m_merged_2_inputs_lut.length ≤ s'.m_merged_2_inputs_lut.length ∧
      (∀ j : Nat, (s.m_inputs_2_merged_lut.getD j []).length ≤
        (s'.m_inputs_2_merged_lut.getD j []).length) ∧
      (∀ j : Nat, (s.m_merged_2_inputs_lut.getD j []).length ≤
        (s'.m_merged_2_inputs_lut.getD j []).length)) := by
  obtain ⟨hwf', hf1, hf2, hnI, hnM, hpresM, hpresI, hnewM, hnewI⟩ :=
    MergedVCFLUTBase.resize_luts_if_needed_spec s hwf n m hn hm
  refine ⟨hwf', hnI, hnM, ?_, ?_, ?_, ?_, ?_, ?_⟩
  · intro i l hsome
    exact hpresM i l
      ((MergedVCFLUTBase.get_merged_isSome_iff s hwf i l).mp hsome).1
      ((MergedVCFLUTBase.get_merged_isSome_iff s hwf i l).mp hsome).2
  · intro i q hsome
    exact hpresI i q
      ((MergedVCFLUTBase.get_input_isSome_iff s hwf i q).mp hsome).1
      ((MergedVCFLUTBase.get_input_isSome_iff s hwf i q).mp hsome).2
  · intro i l hsome hnot
    have hb := (MergedVCFLUTBase.get_merged_isSome_iff _ hwf' i l).mp hsome
    refine hnewM i l hb.1 hb.2 ?_
    intro hcontra
    exact hnot ((MergedVCFLUTBase.get_merged_isSome_iff s hwf i l).mpr hcontra)
  · intro i q hsome hnot
    have hb := (MergedVCFLUTBase.get_input_isSome_iff _ hwf' i q).mp hsome
    refine hnewI i q hb.1 hb.2 ?_
    intro hcontra
    exact hnot ((MergedVCFLUTBase.get_input_isSome_iff s hwf i q).mpr hcontra)
  · intro n' m'
    obtain ⟨h1, h2, h3, h4⟩ :=
      MergedVCFLUTBase.resize_luts_if_needed_never_shrinks s n' m'
    exact ⟨h1, h2, h3, h4⟩
  · intro op s' h
    obtain ⟨h1, h2, h3, h4⟩ := run_op_extents s op s' h
    exact ⟨le_of_eq h1.symm, le_of_eq h2.symm,
      fun j => le_of_eq (h3 j).symm, fun j => le_of_eq (h4 j).symm⟩

theorem claim_C3_witness :
    ((MergedVCFLUTBase.construct true true 2 2).resize_luts_if_needed 3 4).wf ∧
    ((MergedVCFLUTBase.construct true true 2 2).resize_luts_if_needed
      3 4).m_num_input_vcfs = 3 :=
  ⟨(claim_C3_grow (MergedVCFLUTBase.construct true true 2 2) (by decide) 3 4
      (by decide) (by decide)).1,
   (claim_C3_grow (MergedVCFLUTBase.construct true true 2 2) (by decide) 3 4
      (by decide) (by decide)).2.1⟩

/-- C7: `get_lut_value` and `set_lut_value` succeed exactly when the row
index is non-negative and below the number of rows and the column index is
non-negative and below that row's length; lifted through the layout
translation, each public accessor succeeds exactly on logically in-bounds
indices, so in-bounds calls never trip an assertion. -/
theorem claim_C7_bounds_contract :
    (∀ (lut : LutMatrix) (r c : Int), (get_lut_value lut r c).isSome ↔
      (0 ≤ r ∧ r < (lut.length : Int) ∧ 0 ≤ c ∧
        c < (((lut.getD r.toNat []).length : Nat) : Int))) ∧
    (∀ (lut : LutMatrix) (r c v : Int), (set_lut_value lut r c v).isSome ↔
      (0 ≤ r ∧ r < (lut.length : Int) ∧ 0 ≤ c ∧
        c < (((lut.getD r.toNat []).length : Nat) : Int))) ∧
    (∀ s : MergedVCFLUTBase, s.wf → s.m_num_input_vcfs < 2147483648 →
      s.m_num_merged_fields < 2147483648 →
      ∀ i : Nat, i < 4294967296 → ∀ l : Int,
      ((s.get_merged_idx_for_input i l).isSome ↔
        (i < s.m_num_input_vcfs ∧ 0 ≤ l ∧ l < (s.m_num_merged_fields : Int))) ∧
      ((s.get_input_idx_for_merged i l).isSome ↔
        (i < s.m_num_input_vcfs ∧ 0 ≤ l ∧ l < (s.m_num_merged_fields : Int))) ∧
      (∀ v : Int, (s.set_merged_idx_for_input i l v).isSome ↔
        (i < s.m_num_input_vcfs ∧ 0 ≤ l ∧ l < (s.m_num_merged_fields : Int))) ∧
      (∀ v : Int, (s.set_input_idx_for_merged i v l).isSome ↔
        (i < s.m_num_input_vcfs ∧ 0 ≤ l ∧ l < (s.m_num_merged_fields : Int)))) := by
  refine ⟨?_, ?_, ?_⟩
  · intro lut r c
    rw [get_lut_value_isSome_iff]
    exact Iff.rfl
  · intro lut r c v
    rw [set_lut_value_isSome_iff]
    exact Iff.rfl
  · intro s hwf hnI hnM i hi l
    have hbi := MergedVCFLUTBase.input_in_bounds_iff_unsigned s hnI i hi
    refine ⟨?_, ?_, ?_, ?_⟩
    · rw [MergedVCFLUTBase.get_merged_isSome_iff s hwf, hbi]
      exact Iff.rfl
    · rw [MergedVCFLUTBase.get_input_isSome_iff s hwf, hbi]
      exact Iff.rfl
    · intro v
      rw [MergedVCFLUTBase.set_merged_isSome_iff s hwf, hbi]
      exact Iff.rfl
    · intro v
      rw [MergedVCFLUTBase.set_input_isSome_iff s hwf, hbi]
      exact Iff.rfl

theorem claim_C7_witness :
    ((MergedVCFLUTBase.construct true false 2 3).get_merged_idx_for_input
      1 2).isSome :=
  ((claim_C7_bounds_contract.2.2 (MergedVCFLUTBase.construct true false 2 3)
    (by decide) (by decide) (by decide) 1 (by decide) 2).1).mpr
    ⟨by decide, by decide, by decide⟩

/-- C8: the allele table starts with its max-alleles watermark at the default
10; `resize_luts_if_needed(n)` with `n` at most the watermark is a no-op,
and with `n` above the watermark it grows the base table to
`(numInputGVCFs, n)` and raises the watermark to `n`; in particular after
construction `resize(5)` changes nothing, `resize(15)` raises the watermark
to 15, and a subsequent `resize(12)` changes nothing. -/
theorem claim_C8_alleles_watermark :
    (∀ f1 f2 : Bool, ∀ nI : Nat,
      (MergedVCFAllelesIdxLUT.construct f1 f2 nI).m_max_num_alleles = 10 ∧
      (MergedVCFAllelesIdxLUT.construct f1 f2 nI).toBase.m_num_input_vcfs = nI ∧
      (MergedVCFAllelesIdxLUT.construct f1 f2 nI).toBase.m_num_merged_fields = 10 ∧
      (MergedVCFAllelesIdxLUT.construct f1 f2 nI).inv) ∧
    (∀ t : MergedVCFAllelesIdxLUT, ∀ n : Nat, n ≤ t.m_max_num_alleles →
      t.resize_luts_if_needed n = t) ∧
    (∀ t : MergedVCFAllelesIdxLUT, t.inv → ∀ n : Nat, t.m_max_num_alleles < n →
      (t.resize_luts_if_needed n).m_max_num_alleles = n ∧
      (t.resize_luts_if_needed n).toBase.m_num_input_vcfs =
        t.toBase.m_num_input_vcfs ∧
      (t.resize_luts_if_needed n).toBase.m_num_merged_fields = n ∧
      (t.resize_luts_if_needed n).toBase.wf ∧
      (t.resize_luts_if_needed n).inv) ∧
    (∀ f1 f2 : Bool, ∀ nI : Nat,
      (MergedVCFAllelesIdxLUT.construct f1 f2 nI).resize_luts_if_needed 5 =
        MergedVCFAllelesIdxLUT.construct f1 f2 nI ∧
      ((MergedVCFAllelesIdxLUT.construct f1 f2 nI).resize_luts_if_needed
        15).m_max_num_alleles = 15 ∧
      ((MergedVCFAllelesIdxLUT.construct f1 f2 nI).resize_luts_if_needed
          15).resize_luts_if_needed 12 =
        (MergedVCFAllelesIdxLUT.construct f1 f2 nI).resize_luts_if_needed 15) := by
  have hbase : ∀ f1 f2 : Bool, ∀ nI : Nat,
      (MergedVCFAllelesIdxLUT.construct f1 f2 nI).inv ∧
      (MergedVCFAllelesIdxLUT.construct f1 f2 nI).m_max_num_alleles = 10 ∧
      (MergedVCFAllelesIdxLUT.construct f1 f2 nI).toBase.m_num_input_vcfs = nI ∧
      (MergedVCFAllelesIdxLUT.construct f1 f2 nI).toBase.m_num_merged_fields = 10 :=
    fun f1 f2 nI => MergedVCFAllelesIdxLUT.alleles_construct_inv f1 f2 nI
  refine ⟨?_, ?_, ?_, ?_⟩
  · intro f1 f2 nI
    obtain ⟨hinv, hw, hnI, hnM⟩ := hbase f1 f2 nI
    exact ⟨hw, hnI, hnM, hinv⟩
  · intro t n hn
    exact MergedVCFAllelesIdxLUT.alleles_resize_noop t n hn
  · intro t hinv n hn
    obtain ⟨hinv', hw, hnI, hnM⟩ :=
      MergedVCFAllelesIdxLUT.alleles_resize_grow_spec t hinv n hn
    exact ⟨hw, hnI, hnM, hinv'.1, hinv'⟩
  · intro f1 f2 nI
    obtain ⟨hinv, hw, hnI, hnM⟩ := hbase f1 f2 nI
    refine ⟨MergedVCFAllelesIdxLUT.alleles_resize_noop _ 5 (by omega), ?_, ?_⟩
    · exact (MergedVCFAllelesIdxLUT.alleles_resize_grow_spec _ hinv 15
        (by omega)).2.1
    · refine MergedVCFAllelesIdxLUT.alleles_resize_noop _ 12 ?_
      rw [(MergedVCFAllelesIdxLUT.alleles_resize_grow_spec _ hinv 15
        (by omega)).2.1]
      omega

theorem claim_C8_witness :
    (MergedVCFAllelesIdxLUT.construct true true 2).m_max_num_alleles = 10 ∧
    ((MergedVCFAllelesIdxLUT.construct true true 2).resize_luts_if_needed
      15).m_max_num_alleles = 15 :=
  ⟨(claim_C8_alleles_watermark.1 true true 2).1,
   ((claim_C8_alleles_watermark.2.2.2 true true 2).2).1⟩

/-- C9: `add_input_merged_idx_pair(i, l, m)` changes only the forward cell at
`(i, l)` and the reverse cell at `(i, m)`: every other query in either
direction is unchanged; consequently overwriting a mapping
(`add(i, l, m1)` then `add(i, l, m2)` with `m1 ≠ m2`) leaves the old reverse
cell intact, so `get_input_idx_for_merged(i, m1)` still returns `l`. -/
theorem claim_C9_add_frame :
    (∀ (s s' : MergedVCFLUTBase) (i : Nat) (l m : Int),
      s.add_input_merged_idx_pair i l m = some s' → i < 4294967296 →
      (∀ i' : Nat, ∀ l' : Int, i' < 4294967296 → ¬(i' = i ∧ l' = l) →
        s'.get_merged_idx_for_input i' l' = s.get_merged_idx_for_input i' l') ∧
      (∀ i' : Nat, ∀ q' : Int, i' < 4294967296 → ¬(i' = i ∧ q' = m) →
        s'.get_input_idx_for_merged i' q' = s.get_input_idx_for_merged i' q')) ∧
    (∀ (s s' s'' : MergedVCFLUTBase) (i : Nat) (l m1 m2 : Int), m1 ≠ m2 →
      s.add_input_merged_idx_pair i l m1 = some s' →
      s'.add_input_merged_idx_pair i l m2 = some s'' →
      s'.get_input_idx_for_merged i m1 = some l ∧
      s''.get_input_idx_for_merged i m1 = some l) := by
  constructor
  · intro s s' i l m h hi
    obtain ⟨-, -, -, -, agm, agi⟩ := MergedVCFLUTBase.add_spec s i l m s' h
    constructor
    · intro i' l' hi' hne
      rw [agm i' l', if_neg]
      rintro ⟨hti, rfl⟩
      exact hne ⟨toInt32_inj i' i hi' hi hti, rfl⟩
    · intro i' q' hi' hne
      rw [agi i' q', if_neg]
      rintro ⟨hti, rfl⟩
      exact hne ⟨toInt32_inj i' i hi' hi hti, rfl⟩
  · intro s s' s'' i l m1 m2 hne h1 h2
    obtain ⟨-, -, -, -, -, agi1⟩ := MergedVCFLUTBase.add_spec s i l m1 s' h1
    obtain ⟨-, -, -, -, -, agi2⟩ := MergedVCFLUTBase.add_spec s' i l m2 s'' h2
    have hfirst : s'.get_input_idx_for_merged i m1 = some l := by
      rw [agi1 i m1, if_pos ⟨rfl, rfl⟩]
    refine ⟨hfirst, ?_⟩
    rw [agi2 i m1, if_neg, hfirst]
    rintro ⟨-, rfl⟩
    exact hne rfl

theorem claim_C9_witness :
    (⟨true, true, 2, 3,
        [[-2147483647, 2, -2147483647], [-2147483647, -2147483647, -2147483647]],
        [[-2147483647, -2147483647, 1], [-2147483647, -2147483647, -2147483647]]⟩ :
      MergedVCFLUTBase).get_merged_idx_for_input 1 1 =
      (MergedVCFLUTBase.construct true true 2 3).get_merged_idx_for_input 1 1 :=
  ((claim_C9_add_frame.1 (MergedVCFLUTBase.construct true true 2 3) _ 0 1 2
    (by decide) (by decide)).1) 1 1 (by decide) (by decide)

/-- C10 counterexample: the claim fails — a state reachable by the
constructor followed by one `resize_luts_if_needed` call that requests fewer
rows while requesting more columns has an inputs-to-merged matrix whose rows
do not all share one length. -/
theorem claim_C10_counterexample :
    ¬ rectangular ((MergedVCFLUTBase.construct true true 3 2).resize_luts_if_needed
      1 5).m_inputs_2_merged_lut := by
  decide

/-- C10 (amended): in every state reachable by construction,
`add_input_merged_idx_pair`, the `reset_*` operations, and
`resize_luts_if_needed` calls that never request fewer rows or columns than
currently allocated, both matrices are rectangular. -/
theorem claim_C10_amended_rectangular (s : MergedVCFLUTBase)
    (h : ReachableMono s) :
    rectangular s.m_inputs_2_merged_lut ∧ rectangular s.m_merged_2_inputs_lut := by
  have hwf := reachableMono_wf s h
  exact ⟨lut_shape_rectangular _ _ _ hwf.1, lut_shape_rectangular _ _ _ hwf.2⟩

theorem claim_C10_amended_witness :
    rectangular (MergedVCFLUTBase.construct true false 3 2).m_inputs_2_merged_lut ∧
    rectangular (MergedVCFLUTBase.construct true false 3 2).m_merged_2_inputs_lut :=
  claim_C10_amended_rectangular (MergedVCFLUTBase.construct true false 3 2)
    (ReachableMono.construct true false 3 2)

end Gamgee
